import Mathlib

/-!
Verification development for the DragonSync telemetry bridge.

This file gives a shallow embedding, in Lean 4, of the parts of the Python
sources that the specification claims talk about:

* `drone.py`    — the `Drone` record, its `update` merge, and the CoT events
  produced by `to_cot_xml` / `to_pilot_cot_xml` / `to_home_cot_xml`;
* `manager.py`  — `DroneManager.update_or_add_drone` (bounded live set with
  eviction) and `DroneManager.send_updates` (the periodic tick);
* `dragonsync.py` — the telemetry normalizer of `zmq_to_cot`, the
  status-message branch, and the `try`/`except` placement of the event loop;
* `system_status.py` — the `SystemStatus` constructor signature and
  `to_cot_xml`'s reference to the module-level name `logger`;
* `messaging.py` — `CotMessenger.send_cot` retry and fan-out ordering.

Modelling conventions.  Python floats are embedded as `ℚ` (the properties at
stake are comparisons and additions, never rounding).  Wall-clock instants
are `ℚ` seconds, threaded explicitly where the source calls `time.time()` or
`datetime.datetime.utcnow()`.  A Python value that may be `None` is an
`Option`; a dict key that may be absent is a further `Option` layer where the
distinction matters.  Fallible Python code returns `Except PyException`.
Emission is modelled by returning the list of would-be-sent CoT events
(tagged with the registry key that produced them) instead of performing I/O.
-/

/-- The Python exceptions that the embedded code paths can raise. -/
inductive PyException where
  | typeError (kw : String)
  | nameError (n : String)
  | valueError (msg : String)
  | indexError
  | keyError
  deriving DecidableEq, Repr

/-- Which CoT rendering produced an event: drone track, pilot pin, home pin,
or sensor status. -/
inductive EvKind where
  | droneEv
  | pilotEv
  | homeEv
  | statusEv
  deriving DecidableEq, Repr

/-- The attributes of one rendered CoT document that the claims mention.
`time`, `start`, `stale` are UTC instants in `ℚ` seconds (the textual
rendering of instants is modelled separately by `cotTimestamp`). -/
structure CotEvent where
  kind : EvKind
  uid : String
  typ : String
  time : ℚ
  start : ℚ
  stale : ℚ
  lat : ℚ
  lon : ℚ
  hae : ℚ
  deriving DecidableEq, Repr

/-- A broken-down UTC instant, as fed to `strftime`. -/
structure UtcTime where
  year : Nat
  month : Nat
  day : Nat
  hour : Nat
  minute : Nat
  second : Nat
  micro : Nat
  deriving DecidableEq, Repr

/-- Fixed-width zero-padded decimal rendering, as `strftime` does for
in-range field values: digit `i` (most significant first) of `n`. -/
def padChars (w n : Nat) : List Char :=
  (List.range w).reverse.map (fun i => Char.ofNat (48 + (n / 10 ^ i) % 10))

/-- The characters of `strftime` applied to the format
string used for the `time`, `start` and `stale` attributes in `drone.py` and
`system_status.py` (strict UTC, microseconds, trailing Z). -/
def cotTimestampChars (t : UtcTime) : List Char :=
  padChars 4 t.year ++ ['-'] ++ padChars 2 t.month ++ ['-'] ++ padChars 2 t.day
    ++ ['T'] ++ padChars 2 t.hour ++ [':'] ++ padChars 2 t.minute
    ++ [':'] ++ padChars 2 t.second ++ ['.'] ++ padChars 6 t.micro ++ ['Z']

/-- The timestamp string rendered for CoT `time` / `start` / `stale`. -/
def cotTimestamp (t : UtcTime) : String :=
  String.mk (cotTimestampChars t)

/-- Decides whether a character list has the strict shape
YYYY-MM-DDTHH:MM:SS.ffffffZ. -/
def isStrictCotStampChars (cs : List Char) : Bool :=
  match cs with
  | [y1, y2, y3, y4, s1, mo1, mo2, s2, d1, d2, s3, h1, h2, s4, mi1, mi2, s5,
     se1, se2, s6, u1, u2, u3, u4, u5, u6, s7] =>
      [y1, y2, y3, y4, mo1, mo2, d1, d2, h1, h2, mi1, mi2, se1, se2,
       u1, u2, u3, u4, u5, u6].all Char.isDigit
      && s1 = '-' && s2 = '-' && s3 = 'T' && s4 = ':' && s5 = ':'
      && s6 = '.' && s7 = 'Z'
  | _ => false

/-- Decides whether a string is a strict YYYY-MM-DDTHH:MM:SS.ffffffZ UTC
timestamp. -/
def isStrictCotStamp (s : String) : Bool :=
  isStrictCotStampChars s.data

/-- The drone record of `drone.py`.  Field names follow the Python
attributes.  `mac` and `rssi` are `Option` because the ingest path can store
Python `None` in them; `prev_lat`, `prev_lon`, `direction`, `ua_type`,
`speed_multiplier` and `pressure_altitude` are `Option` because the source
initializes or guards them with `None`. -/
structure Drone where
  id : String
  id_type : String
  ua_type : Option Int
  ua_type_name : String
  operator_id_type : String
  operator_id : String
  op_status : String
  height_type : String
  ew_dir : String
  direction : Option ℚ
  speed_multiplier : Option ℚ
  pressure_altitude : Option ℚ
  vertical_accuracy : String
  horizontal_accuracy : String
  baro_accuracy : String
  speed_accuracy : String
  timestamp : String
  timestamp_accuracy : String
  prev_lat : Option ℚ
  prev_lon : Option ℚ
  index : Int
  runtime : Int
  mac : Option String
  rssi : Option ℚ
  lat : ℚ
  lon : ℚ
  speed : ℚ
  vspeed : ℚ
  alt : ℚ
  height : ℚ
  pilot_lat : ℚ
  pilot_lon : ℚ
  home_lat : ℚ
  home_lon : ℚ
  description : String
  last_update_time : ℚ
  last_sent_time : ℚ
  last_sent_lat : ℚ
  last_sent_lon : ℚ
  caa_id : String
  last_keepalive_time : ℚ
  deriving DecidableEq, Repr

/-- `Drone.__init__` as called from the ingest path of `dragonsync.py`:
the eleven explicitly passed arguments, every other parameter at its Python
default.  `now` stands for the `time.time()` read in the constructor. -/
def Drone.init (now : ℚ) (id : String) (lat lon speed vspeed alt height
    pilot_lat pilot_lon : ℚ) (description : String) (mac : Option String)
    (rssi : Option ℚ) : Drone :=
  { id := id
    id_type := ""
    ua_type := none
    ua_type_name := ""
    operator_id_type := ""
    operator_id := ""
    op_status := ""
    height_type := ""
    ew_dir := ""
    direction := none
    speed_multiplier := none
    pressure_altitude := none
    vertical_accuracy := ""
    horizontal_accuracy := ""
    baro_accuracy := ""
    speed_accuracy := ""
    timestamp := ""
    timestamp_accuracy := ""
    prev_lat := none
    prev_lon := none
    index := 0
    runtime := 0
    mac := mac
    rssi := rssi
    lat := lat
    lon := lon
    speed := speed
    vspeed := vspeed
    alt := alt
    height := height
    pilot_lat := pilot_lat
    pilot_lon := pilot_lon
    home_lat := 0
    home_lon := 0
    description := description
    last_update_time := now
    last_sent_time := 0
    last_sent_lat := lat
    last_sent_lon := lon
    caa_id := ""
    last_keepalive_time := 0 }

/-- The full keyword-argument vector of `Drone.update`.  A call site that
omits a keyword contributes the Python default recorded in
`UpdateArgs.defaults`. -/
structure UpdateArgs where
  lat : ℚ
  lon : ℚ
  speed : ℚ
  vspeed : ℚ
  alt : ℚ
  height : ℚ
  pilot_lat : ℚ
  pilot_lon : ℚ
  description : String
  mac : Option String
  rssi : Option ℚ
  home_lat : ℚ
  home_lon : ℚ
  id_type : String
  ua_type : Option Int
  ua_type_name : String
  operator_id_type : String
  operator_id : String
  op_status : String
  height_type : String
  ew_dir : String
  direction : Option ℚ
  speed_multiplier : Option ℚ
  pressure_altitude : Option ℚ
  vertical_accuracy : String
  horizontal_accuracy : String
  baro_accuracy : String
  speed_accuracy : String
  timestamp : String
  timestamp_accuracy : String
  index : Int
  runtime : Int
  caa_id : String
  deriving DecidableEq, Repr

/-- The Python default values of the optional parameters of `Drone.update`
(the first eleven parameters are required; a caller always supplies them). -/
def UpdateArgs.defaults (lat lon speed vspeed alt height pilot_lat
    pilot_lon : ℚ) (description : String) (mac : Option String)
    (rssi : Option ℚ) : UpdateArgs :=
  { lat := lat, lon := lon, speed := speed, vspeed := vspeed, alt := alt
    height := height, pilot_lat := pilot_lat, pilot_lon := pilot_lon
    description := description, mac := mac, rssi := rssi
    home_lat := 0, home_lon := 0, id_type := "", ua_type := none
    ua_type_name := "", operator_id_type := "", operator_id := ""
    op_status := "", height_type := "", ew_dir := "", direction := none
    speed_multiplier := none, pressure_altitude := none
    vertical_accuracy := "", horizontal_accuracy := "", baro_accuracy := ""
    speed_accuracy := "", timestamp := "", timestamp_accuracy := ""
    index := 0, runtime := 0, caa_id := "" }

/-- `Drone.update` from `drone.py`.  Base telemetry fields are assigned
unconditionally; Remote-ID enrichment fields are assigned only when the
argument is truthy (non-`None`, respectively non-empty string); the previous
position is remembered before being overwritten; `last_update_time` is
stamped with `now`.  The great-circle fallback bearing of the source is
computed with `math.sin`/`math.cos`/`math.atan2`; its value is passed in as
`fb` (no claim depends on it) while the source's guard structure — apply it
exactly when no heading is known after the assignments — is kept. -/
def Drone.update (d : Drone) (a : UpdateArgs) (now fb : ℚ) : Drone :=
  let dirAssigned : Option ℚ :=
    match a.direction with
    | some x => some x
    | none => d.direction
  { d with
    prev_lat := some d.lat
    prev_lon := some d.lon
    lat := a.lat
    lon := a.lon
    speed := a.speed
    vspeed := a.vspeed
    alt := a.alt
    height := a.height
    pilot_lat := a.pilot_lat
    pilot_lon := a.pilot_lon
    home_lat := a.home_lat
    home_lon := a.home_lon
    description := a.description
    mac := a.mac
    rssi := a.rssi
    index := a.index
    runtime := a.runtime
    id_type := a.id_type
    ua_type := match a.ua_type with | some u => some u | none => d.ua_type
    ua_type_name := if a.ua_type_name ≠ "" then a.ua_type_name else d.ua_type_name
    operator_id_type :=
      if a.operator_id_type ≠ "" then a.operator_id_type else d.operator_id_type
    operator_id := if a.operator_id ≠ "" then a.operator_id else d.operator_id
    op_status := if a.op_status ≠ "" then a.op_status else d.op_status
    height_type := if a.height_type ≠ "" then a.height_type else d.height_type
    ew_dir := if a.ew_dir ≠ "" then a.ew_dir else d.ew_dir
    speed_multiplier :=
      match a.speed_multiplier with | some x => some x | none => d.speed_multiplier
    pressure_altitude :=
      match a.pressure_altitude with | some x => some x | none => d.pressure_altitude
    vertical_accuracy :=
      if a.vertical_accuracy ≠ "" then a.vertical_accuracy else d.vertical_accuracy
    horizontal_accuracy :=
      if a.horizontal_accuracy ≠ "" then a.horizontal_accuracy else d.horizontal_accuracy
    baro_accuracy := if a.baro_accuracy ≠ "" then a.baro_accuracy else d.baro_accuracy
    speed_accuracy :=
      if a.speed_accuracy ≠ "" then a.speed_accuracy else d.speed_accuracy
    timestamp := if a.timestamp ≠ "" then a.timestamp else d.timestamp
    timestamp_accuracy :=
      if a.timestamp_accuracy ≠ "" then a.timestamp_accuracy else d.timestamp_accuracy
    caa_id := if a.caa_id ≠ "" then a.caa_id else d.caa_id
    last_update_time := now
    direction := match dirAssigned with | some x => some x | none => some fb }

/-- `UA_COT_TYPE_MAP.get(self.ua_type, 'a-u-A-M-H-R')` from `drone.py`. -/
def uaCotType (u : Option Int) : String :=
  match u with
  | some 1 => "a-f-A-f"
  | some 2 => "a-u-A-M-H-R"
  | some 3 => "a-u-A-M-H-R"
  | some 4 => "a-u-A-M-H-R"
  | some 5 => "a-f-A-f"
  | some 6 => "a-f-A-f"
  | some 7 => "b-m-p-s-m"
  | some 8 => "b-m-p-s-m"
  | some 9 => "b-m-p-s-m"
  | some 10 => "b-m-p-s-m"
  | some 11 => "b-m-p-s-m"
  | some 12 => "b-m-p-s-m"
  | some 13 => "b-m-p-s-m"
  | some 14 => "b-m-p-s-m"
  | some 15 => "b-m-p-s-m"
  | _ => "a-u-A-M-H-R"

/-- The base id used for pilot/home UIDs: the drone id with a leading
"drone-" removed, as in `to_pilot_cot_xml` / `to_home_cot_xml`. -/
def stripDronePfx (s : String) : String :=
  if s.startsWith "drone-" then s.drop 6 else s

/-- The event rendered by `Drone.to_cot_xml`.  The uid is always the stable
`self.id`; `stale` is `now` plus the supplied offset, or plus 10 minutes. -/
def droneCotEvent (d : Drone) (now : ℚ) (staleOffset : Option ℚ) : CotEvent :=
  { kind := EvKind.droneEv
    uid := d.id
    typ := uaCotType d.ua_type
    time := now
    start := now
    stale := now + staleOffset.getD 600
    lat := d.lat
    lon := d.lon
    hae := d.alt }

/-- The event rendered by `Drone.to_pilot_cot_xml`. -/
def pilotCotEvent (d : Drone) (now : ℚ) (staleOffset : Option ℚ) : CotEvent :=
  { kind := EvKind.pilotEv
    uid := "pilot-" ++ stripDronePfx d.id
    typ := "b-m-p-s-m"
    time := now
    start := now
    stale := now + staleOffset.getD 600
    lat := d.pilot_lat
    lon := d.pilot_lon
    hae := d.alt }

/-- The event rendered by `Drone.to_home_cot_xml`. -/
def homeCotEvent (d : Drone) (now : ℚ) (staleOffset : Option ℚ) : CotEvent :=
  { kind := EvKind.homeEv
    uid := "home-" ++ stripDronePfx d.id
    typ := "b-m-p-s-m"
    time := now
    start := now
    stale := now + staleOffset.getD 600
    lat := d.home_lat
    lon := d.home_lon
    hae := d.alt }

/-- One iteration of the per-drone body of `DroneManager.send_updates`:
returns (retire this record?, events sent for it, the record after the
`last_sent_*` stamps).  The source also computes
`sqrt((lat - last_sent_lat)^2 + (lon - last_sent_lon)^2)` but uses it only
inside a debug log message, so it does not appear here. -/
def tickOne (timeout rate now : ℚ) (d : Drone) : Bool × List CotEvent × Drone :=
  let tsu := now - d.last_update_time
  if tsu > timeout then
    (true, [], d)
  else if now - d.last_sent_time ≥ rate then
    let off : Option ℚ := some (timeout - tsu)
    let evs := [droneCotEvent d now off]
      ++ (if d.pilot_lat ≠ 0 ∨ d.pilot_lon ≠ 0 then [pilotCotEvent d now off] else [])
      ++ (if d.home_lat ≠ 0 ∨ d.home_lon ≠ 0 then [homeCotEvent d now off] else [])
    (false, evs,
      { d with last_sent_lat := d.lat, last_sent_lon := d.lon, last_sent_time := now })
  else
    (false, [], d)

/-- Association-list lookup for the `drone_dict` embedding (first entry with
the key wins, like a Python dict with unique keys). -/
def alookup {β : Type} (k : String) : List (String × β) → Option β
  | [] => none
  | p :: ps => if p.1 = k then some p.2 else alookup k ps

/-- Replacing the value stored at a key (Python `dict[k] = v` on a present
key, or in-place mutation of the stored object). -/
def aset {β : Type} (k : String) (v : β) : List (String × β) → List (String × β)
  | [] => []
  | p :: ps => if p.1 = k then (k, v) :: aset k v ps else p :: aset k v ps

/-- Removing the entry of a key (Python `del dict[k]`; keys are unique, so
removing the first occurrence removes the only one). -/
def aerase {β : Type} (k : String) : List (String × β) → List (String × β)
  | [] => []
  | p :: ps => if p.1 = k then ps else p :: aerase k ps

/-- Removing the first occurrence of a value from the insertion-order queue
(Python `deque.remove`). -/
def removeFirst (l : List String) (k : String) : List String :=
  match l with
  | [] => []
  | x :: xs => if x = k then xs else x :: removeFirst xs k

/-- The `DroneManager` state of `manager.py`: the insertion-order deque of
ids (front = oldest), the id-to-record dict, and the configuration. -/
structure DroneManager where
  maxDrones : Nat
  rateLimit : ℚ
  inactivityTimeout : ℚ
  drones : List String
  droneDict : List (String × Drone)
  deriving DecidableEq, Repr

/-- The `Drone.update` call of `DroneManager.update_or_add_drone` when the
id is already tracked: eleven fields taken from the incoming record, every
other keyword at its Python default. -/
def managerUpdateArgs (dd : Drone) : UpdateArgs :=
  UpdateArgs.defaults dd.lat dd.lon dd.speed dd.vspeed dd.alt dd.height
    dd.pilot_lat dd.pilot_lon dd.description dd.mac dd.rssi

/-- `DroneManager.update_or_add_drone`.  A new id evicts the oldest id first
when the deque is full (`popleft` on an empty deque is an `IndexError`);
the new record's `last_sent_time` is reset to 0; the operation sends no CoT
event, which the empty event list records. -/
def updateOrAddDrone (m : DroneManager) (droneId : String) (droneData : Drone)
    (now fb : ℚ) : Except PyException (DroneManager × List (String × CotEvent)) :=
  match alookup droneId m.droneDict with
  | none =>
      if m.drones.length ≥ m.maxDrones then
        match m.drones with
        | [] => Except.error PyException.indexError
        | oldest :: rest =>
            Except.ok
              ({ m with
                  drones := rest ++ [droneId]
                  droneDict := aerase oldest m.droneDict
                    ++ [(droneId, { droneData with last_sent_time := 0 })] }, [])
      else
        Except.ok
          ({ m with
              drones := m.drones ++ [droneId]
              droneDict := m.droneDict
                ++ [(droneId, { droneData with last_sent_time := 0 })] }, [])
  | some d =>
      Except.ok
        ({ m with
            droneDict := aset droneId (d.update (managerUpdateArgs droneData) now fb)
              m.droneDict }, [])

/-- The first pass of `DroneManager.send_updates`: iterate over a snapshot
of the deque, look each id up in the dict (`KeyError` if absent), retire or
emit, and mutate the stored record in place.  Returns the ids to remove, the
emitted events tagged with the id that produced them, and the updated dict. -/
def sendUpdatesGo (timeout rate now : ℚ) (dict : List (String × Drone)) :
    List String →
    Except PyException (List String × List (String × CotEvent) × List (String × Drone))
  | [] => Except.ok ([], [], dict)
  | k :: ks =>
      match alookup k dict with
      | none => Except.error PyException.keyError
      | some d =>
          let r := tickOne timeout rate now d
          let dict' := if r.1 then dict else aset k r.2.2 dict
          match sendUpdatesGo timeout rate now dict' ks with
          | Except.error e => Except.error e
          | Except.ok (rms, evs, dictF) =>
              Except.ok
                ((if r.1 then k :: rms else rms),
                 r.2.1.map (fun e => (k, e)) ++ evs, dictF)

/-- `DroneManager.send_updates`: the per-drone pass followed by the removal
pass (`deque.remove` plus `del drone_dict[id]` for each retired id). -/
def sendUpdates (m : DroneManager) (now : ℚ) :
    Except PyException (DroneManager × List (String × CotEvent)) :=
  match sendUpdatesGo m.inactivityTimeout m.rateLimit now m.droneDict m.drones with
  | Except.error e => Except.error e
  | Except.ok (rms, evs, dictF) =>
      Except.ok
        ({ m with
            drones := rms.foldl removeFirst m.drones
            droneDict := rms.foldl (fun acc k => aerase k acc) dictF }, evs)

/-- The registry invariant of the live set: the deque has no duplicate ids,
the dict keys have no duplicates, an id is queued exactly when it is a dict
key, and the deque never exceeds the cap. -/
def ManagerInv (m : DroneManager) : Prop :=
  m.drones.Nodup ∧ (m.droneDict.map Prod.fst).Nodup ∧
    (∀ k ∈ m.drones, k ∈ m.droneDict.map Prod.fst) ∧
    (∀ k ∈ m.droneDict.map Prod.fst, k ∈ m.drones) ∧
    m.drones.length ≤ m.maxDrones

instance (m : DroneManager) : Decidable (ManagerInv m) := by
  unfold ManagerInv
  infer_instance

/-- The serial-number identifier tag of `dragonsync.py`. -/
def serialTag : String := "Serial Number (ANSI/CTA-2063-A)"

/-- The CAA registration identifier tag of `dragonsync.py`. -/
def caaTag : String := "CAA Assigned Registration ID"

/-- A "Basic ID" sub-object.  Every field is read with `.get`, so each may
be absent (Python `None`). -/
structure BasicID where
  id_type : Option String
  mac : Option String
  rssi : Option ℚ
  id : Option String
  deriving DecidableEq, Repr

/-- A "Location/Vector Message" sub-object; numeric fields may be absent
(the source reads them with `.get(key, 0.0)` through `get_float`, which is
the identity on numbers). -/
structure LocationVector where
  latitude : Option ℚ
  longitude : Option ℚ
  speed : Option ℚ
  vert_speed : Option ℚ
  geodetic_altitude : Option ℚ
  height_agl : Option ℚ
  deriving DecidableEq, Repr

/-- A "Self-ID Message" sub-object. -/
structure SelfIdMsg where
  text : Option String
  deriving DecidableEq, Repr

/-- A "System Message" sub-object. -/
structure SystemMsg where
  latitude : Option ℚ
  longitude : Option ℚ
  deriving DecidableEq, Repr

/-- One element of a list-format telemetry message: a dict whose recognized
keys are each optional. -/
structure TelemetryItem where
  mac : Option String
  rssi : Option ℚ
  basicId : Option BasicID
  locationVector : Option LocationVector
  selfId : Option SelfIdMsg
  systemMsg : Option SystemMsg
  deriving DecidableEq, Repr

/-- The `drone_info` accumulator dict of `zmq_to_cot`.  An outer `none`
means the key is absent.  For `mac` and `rssi` the stored value itself can
be Python `None` (written by `drone_info['mac'] = item['Basic ID'].get('MAC')`),
hence the inner `Option`. -/
structure DroneInfo where
  mac : Option (Option String)
  rssi : Option (Option ℚ)
  id : Option String
  lat : Option ℚ
  lon : Option ℚ
  speed : Option ℚ
  vspeed : Option ℚ
  alt : Option ℚ
  height : Option ℚ
  description : Option String
  pilot_lat : Option ℚ
  pilot_lon : Option ℚ
  deriving DecidableEq, Repr

/-- The empty `drone_info = {}` dict. -/
def emptyInfo : DroneInfo :=
  { mac := none, rssi := none, id := none, lat := none, lon := none
    speed := none, vspeed := none, alt := none, height := none
    description := none, pilot_lat := none, pilot_lon := none }

/-- The "Basic ID" block of `zmq_to_cot`: `mac` and `rssi` are always
(re)assigned from the sub-object; the identifier is assigned only when the
tag is the serial-number tag or the CAA tag and no identifier was stored
yet. -/
def processBasicId (info : DroneInfo) (b : BasicID) : DroneInfo :=
  let info := { info with mac := some b.mac, rssi := some b.rssi }
  if b.id_type = some serialTag ∧ info.id = none then
    { info with id := some (b.id.getD "unknown") }
  else if b.id_type = some caaTag ∧ info.id = none then
    { info with id := some (b.id.getD "unknown") }
  else info

/-- The "Location/Vector Message" block of `zmq_to_cot`. -/
def processLocation (info : DroneInfo) (lv : LocationVector) : DroneInfo :=
  { info with
    lat := some (lv.latitude.getD 0)
    lon := some (lv.longitude.getD 0)
    speed := some (lv.speed.getD 0)
    vspeed := some (lv.vert_speed.getD 0)
    alt := some (lv.geodetic_altitude.getD 0)
    height := some (lv.height_agl.getD 0) }

/-- The "System Message" block of `zmq_to_cot` (operator position). -/
def processSystem (info : DroneInfo) (s : SystemMsg) : DroneInfo :=
  { info with
    pilot_lat := some (s.latitude.getD 0)
    pilot_lon := some (s.longitude.getD 0) }

/-- Processing one element of a list-format message, in the source's block
order: top-level MAC, top-level RSSI, Basic ID, Location/Vector, Self-ID,
System. -/
def processItem (info : DroneInfo) (it : TelemetryItem) : DroneInfo :=
  let info := match it.mac with
    | some m => { info with mac := some (some m) }
    | none => info
  let info := match it.rssi with
    | some r => { info with rssi := some (some r) }
    | none => info
  let info := match it.basicId with
    | some b => processBasicId info b
    | none => info
  let info := match it.locationVector with
    | some lv => processLocation info lv
    | none => info
  let info := match it.selfId with
    | some s => { info with description := some (s.text.getD "") }
    | none => info
  match it.systemMsg with
  | some s => processSystem info s
  | none => info

/-- The list-format branch of the normalizer: fold the accumulator over the
sub-objects. -/
def parseListMessage (items : List TelemetryItem) : DroneInfo :=
  items.foldl processItem emptyInfo

/-- An "AUX_ADV_IND" sub-object of the single-dict format. -/
structure AuxAdvInd where
  rssi : Option ℚ
  deriving DecidableEq, Repr

/-- A single-dict (ESP32) format telemetry message. -/
structure SingleMsg where
  auxAdvInd : Option AuxAdvInd
  aextAdvA : Option String
  basicId : Option BasicID
  locationVector : Option LocationVector
  selfId : Option SelfIdMsg
  systemMsg : Option SystemMsg
  deriving DecidableEq, Repr

/-- `message["aext"]["AdvA"].split()[0]`: the token before the first
whitespace (the MAC before a trailing " (Public)"). -/
def firstToken (s : String) : String :=
  s.takeWhile (fun c => c ≠ ' ')

/-- The single-dict branch of the normalizer, in the source's block order:
AUX_ADV_IND (raw RSSI, MAC from `aext.AdvA`), then Basic ID,
Location/Vector, Self-ID, System exactly as in the list branch. -/
def processSingleMsg (msg : SingleMsg) : DroneInfo :=
  let info := emptyInfo
  let info := match msg.auxAdvInd with
    | some a =>
        let info := match a.rssi with
          | some r => { info with rssi := some (some r) }
          | none => info
        match msg.aextAdvA with
        | some adva => { info with mac := some (some (firstToken adva)) }
        | none => info
    | none => info
  let info := match msg.basicId with
    | some b => processBasicId info b
    | none => info
  let info := match msg.locationVector with
    | some lv => processLocation info lv
    | none => info
  let info := match msg.selfId with
    | some s => { info with description := some (s.text.getD "") }
    | none => info
  match msg.systemMsg with
  | some s => processSystem info s
  | none => info

/-- `drone_info['id']` gets the "drone-" marker prepended unless already
present. -/
def withDronePfx (s : String) : String :=
  if s.startsWith "drone-" then s else "drone-" ++ s

/-- `drone_info.get('mac', "")`: the empty string when the key is absent,
otherwise the stored value (which may be Python `None`). -/
def DroneInfo.macArg (info : DroneInfo) : Option String :=
  match info.mac with
  | none => some ""
  | some v => v

/-- `drone_info.get('rssi', 0.0)` (and `0` in the constructor call). -/
def DroneInfo.rssiArg (info : DroneInfo) : Option ℚ :=
  match info.rssi with
  | none => some 0
  | some v => v

/-- The `drone.update(...)` call of `zmq_to_cot` on an already-tracked id:
the eleven keywords passed there, with `.get` defaults for absent keys,
every other parameter at its Python default. -/
def ingestUpdateArgs (info : DroneInfo) : UpdateArgs :=
  UpdateArgs.defaults (info.lat.getD 0) (info.lon.getD 0) (info.speed.getD 0)
    (info.vspeed.getD 0) (info.alt.getD 0) (info.height.getD 0)
    (info.pilot_lat.getD 0) (info.pilot_lon.getD 0) (info.description.getD "")
    info.macArg info.rssiArg

/-- The registry step of `zmq_to_cot` after normalization: skip when no
identifier was found; otherwise prefix the id, update the tracked record in
place, or construct a `Drone` and hand it to
`DroneManager.update_or_add_drone`.  No CoT event is sent here. -/
def ingestTelemetry (m : DroneManager) (info : DroneInfo) (now fb : ℚ) :
    Except PyException (DroneManager × List (String × CotEvent)) :=
  match info.id with
  | none => Except.ok (m, [])
  | some rawId =>
      let droneId := withDronePfx rawId
      match alookup droneId m.droneDict with
      | some d =>
          Except.ok
            ({ m with
                droneDict := aset droneId (d.update (ingestUpdateArgs info) now fb)
                  m.droneDict }, [])
      | none =>
          updateOrAddDrone m droneId
            (Drone.init now droneId (info.lat.getD 0) (info.lon.getD 0)
              (info.speed.getD 0) (info.vspeed.getD 0) (info.alt.getD 0)
              (info.height.getD 0) (info.pilot_lat.getD 0) (info.pilot_lon.getD 0)
              (info.description.getD "") info.macArg info.rssiArg) now fb

/-- The identifier a single sub-object would contribute: its Basic ID's id
when the tag is the serial-number tag or the CAA tag. -/
def acceptedIdOfItem (it : TelemetryItem) : Option String :=
  match it.basicId with
  | some b =>
      if b.id_type = some serialTag ∨ b.id_type = some caaTag then
        some (b.id.getD "unknown")
      else none
  | none => none

/-- The identifier the source's accumulator ends up with: the first
sub-object carrying either accepted tag wins, in stream order. -/
def firstAcceptedId (items : List TelemetryItem) : Option String :=
  items.findSome? acceptedIdOfItem

/-- Modelled from the spec: the claimed identifier-selection rule, under
which every serial-number-tagged sub-object has priority over every
CAA-tagged one.  Stated only to be compared against the source's
`firstAcceptedId`. -/
def specPriorityId (items : List TelemetryItem) : Option String :=
  match items.findSome? (fun it =>
      match it.basicId with
      | some b => if b.id_type = some serialTag then some (b.id.getD "unknown") else none
      | none => none) with
  | some i => some i
  | none =>
      items.findSome? (fun it =>
        match it.basicId with
        | some b => if b.id_type = some caaTag then some (b.id.getD "unknown") else none
        | none => none)

/-- A loosely-typed Python value, for fields the status branch passes
through without coercion. -/
inductive PyVal where
  | num (q : ℚ)
  | str (s : String)
  deriving DecidableEq, Repr

/-- A decoded host-status message (`status_socket.recv_json()`), with every
recognized key optional. -/
structure StatusMessage where
  serial_number : Option String
  gps_lat : Option ℚ
  gps_lon : Option ℚ
  gps_alt : Option ℚ
  cpu_usage : Option ℚ
  memory_total : Option ℚ
  memory_available : Option ℚ
  disk_total : Option ℚ
  disk_used : Option ℚ
  temperature : Option ℚ
  uptime : Option ℚ
  pluto_temp : Option PyVal
  zynq_temp : Option PyVal
  deriving DecidableEq, Repr

/-- The `SystemStatus` record of `system_status.py`. -/
structure SystemStatus where
  id : String
  lat : ℚ
  lon : ℚ
  alt : ℚ
  cpu_usage : ℚ
  memory_total : ℚ
  memory_available : ℚ
  disk_total : ℚ
  disk_used : ℚ
  temperature : ℚ
  uptime : ℚ
  last_update_time : ℚ
  deriving DecidableEq, Repr

/-- `SystemStatus.__init__` once its keyword check has passed: the id is the
serial with the "wardragon-" marker, `now` is the `time.time()` stamp. -/
def SystemStatus.make (now : ℚ) (serial_number : String)
    (lat lon alt cpu_usage memory_total memory_available disk_total disk_used
     temperature uptime : ℚ) : SystemStatus :=
  { id := "wardragon-" ++ serial_number
    lat := lat, lon := lon, alt := alt, cpu_usage := cpu_usage
    memory_total := memory_total, memory_available := memory_available
    disk_total := disk_total, disk_used := disk_used
    temperature := temperature, uptime := uptime, last_update_time := now }

/-- The keyword parameters `SystemStatus.__init__` accepts, from its
signature in `system_status.py`. -/
def systemStatusAcceptedKwargs : List String :=
  ["serial_number", "lat", "lon", "alt", "cpu_usage", "memory_total",
   "memory_available", "disk_total", "disk_used", "temperature", "uptime"]

/-- The keyword arguments the status branch of `zmq_to_cot` passes to
`SystemStatus(...)`, in call order. -/
def statusLoopCallKwargs : List String :=
  ["serial_number", "lat", "lon", "alt", "cpu_usage", "memory_total",
   "memory_available", "disk_total", "disk_used", "temperature", "uptime",
   "pluto_temp", "zynq_temp"]

/-- The `SystemStatus(...)` call of the status branch: a Python call with an
unexpected keyword argument raises `TypeError` naming the first such
keyword; otherwise the record is built from the extracted locals (MiB
conversions divide by 1024*1024). -/
def callSystemStatusFromLoop (now : ℚ) (sm : StatusMessage) :
    Except PyException SystemStatus :=
  match statusLoopCallKwargs.find?
      (fun k => !(systemStatusAcceptedKwargs.contains k)) with
  | some k => Except.error (PyException.typeError k)
  | none =>
      Except.ok (SystemStatus.make now (sm.serial_number.getD "unknown")
        (sm.gps_lat.getD 0) (sm.gps_lon.getD 0) (sm.gps_alt.getD 0)
        (sm.cpu_usage.getD 0) (sm.memory_total.getD 0 / (1024 * 1024))
        (sm.memory_available.getD 0 / (1024 * 1024))
        (sm.disk_total.getD 0 / (1024 * 1024)) (sm.disk_used.getD 0 / (1024 * 1024))
        (sm.temperature.getD 0) (sm.uptime.getD 0))

/-- The module-level names bound in `system_status.py` (its imports and the
class).  The module never binds `logger`. -/
def systemStatusModuleGlobals : List String :=
  ["datetime", "xml", "etree", "Optional", "time", "SystemStatus"]

/-- `SystemStatus.to_cot_xml`: the XML document is assembled, then the
debug-logging statement resolves the module-level name `logger` before the
bytes are returned; an unresolvable name raises `NameError`. -/
def SystemStatus.toCotXml (s : SystemStatus) (now : ℚ) :
    Except PyException CotEvent :=
  let ev : CotEvent :=
    { kind := EvKind.statusEv
      uid := s.id
      typ := "b-m-p-s-m"
      time := now
      start := now
      stale := now + 600
      lat := s.lat
      lon := s.lon
      hae := s.alt }
  if systemStatusModuleGlobals.contains "logger" then Except.ok ev
  else Except.error (PyException.nameError "logger")

/-- Observable actions of the status branch of the event loop. -/
inductive StatusAction where
  | warnedZeroPosition
  | attemptConstruct
  | sentCot
  deriving DecidableEq, Repr

/-- The status branch of `zmq_to_cot`: extract the fields; when latitude and
longitude are both exactly 0.0 log a warning announcing that the CoT message
will proceed with [0.0, 0.0]; then construct `SystemStatus` and, if that and
the rendering succeed, hand the bytes to `send_cot`.  The action trace
records what the branch did; the `Except` records the exception that escapes
to the loop's handler. -/
def processStatusMessage (now : ℚ) (sm : StatusMessage) :
    List StatusAction × Except PyException Unit :=
  let lat := sm.gps_lat.getD 0
  let lon := sm.gps_lon.getD 0
  let warn := if lat = 0 ∧ lon = 0 then [StatusAction.warnedZeroPosition] else []
  match callSystemStatusFromLoop now sm with
  | Except.error e => (warn ++ [StatusAction.attemptConstruct], Except.error e)
  | Except.ok st =>
      match st.toCotXml now with
      | Except.error e => (warn ++ [StatusAction.attemptConstruct], Except.error e)
      | Except.ok _ =>
          (warn ++ [StatusAction.attemptConstruct, StatusAction.sentCot],
           Except.ok ())

/-- One decoded telemetry frame as the loop sees it: a list, a dict, some
other JSON shape (the logged-and-skipped case), or a frame on which
`recv_json` itself raises. -/
inductive TelemetryInput where
  | listMsg (items : List TelemetryItem)
  | dictMsg (msg : SingleMsg)
  | otherShape
  | malformedJson
  deriving DecidableEq, Repr

/-- The observable outcome of one iteration of the `while True` loop of
`zmq_to_cot`: either the next iteration is reached, or an exception escaped
the loop body, was logged at error level by the handler that sits outside
the `while`, and the loop is over. -/
inductive LoopStepResult where
  | continues (m : DroneManager) (events : List (String × CotEvent))
      (statusTrace : List StatusAction)
  | loggedErrorAndTerminated (e : PyException)
  deriving DecidableEq, Repr

/-- The tail of one loop iteration after the telemetry branch: the status
branch (if a status message arrived), then `drone_manager.send_updates()`. -/
def loopTail (m : DroneManager) (status : Option StatusMessage) (now : ℚ) :
    Except PyException (DroneManager × List (String × CotEvent) × List StatusAction) :=
  match status with
  | some sm =>
      let r := processStatusMessage now sm
      match r.2 with
      | Except.error e => Except.error e
      | Except.ok _ =>
          match sendUpdates m now with
          | Except.error e => Except.error e
          | Except.ok p => Except.ok (p.1, p.2, r.1)
  | none =>
      match sendUpdates m now with
      | Except.error e => Except.error e
      | Except.ok p => Except.ok (p.1, p.2, [])

/-- The body of one iteration of the `while True` loop.  A frame of
unrecognized shape hits `continue` after an error log, skipping the status
branch and the tick for that iteration; a frame on which `recv_json` raises
propagates the exception. -/
def loopBody (m : DroneManager) (telemetry : Option TelemetryInput)
    (status : Option StatusMessage) (now fb : ℚ) :
    Except PyException (DroneManager × List (String × CotEvent) × List StatusAction) :=
  match telemetry with
  | some TelemetryInput.malformedJson =>
      Except.error (PyException.valueError "invalid JSON")
  | some TelemetryInput.otherShape => Except.ok (m, [], [])
  | some (TelemetryInput.listMsg items) =>
      match ingestTelemetry m (parseListMessage items) now fb with
      | Except.error e => Except.error e
      | Except.ok p => loopTail p.1 status now
  | some (TelemetryInput.dictMsg msg) =>
      match ingestTelemetry m (processSingleMsg msg) now fb with
      | Except.error e => Except.error e
      | Except.ok p => loopTail p.1 status now
  | none => loopTail m status now

/-- One iteration of the running loop, as guarded by the `try`/`except`
that encloses the whole `while True` in `zmq_to_cot`: a successful body
reaches the next iteration; an exception is logged at error level and the
loop terminates. -/
def loopStep (m : DroneManager) (telemetry : Option TelemetryInput)
    (status : Option StatusMessage) (now fb : ℚ) : LoopStepResult :=
  match loopBody m telemetry status now fb with
  | Except.ok p => LoopStepResult.continues p.1 p.2.1 p.2.2
  | Except.error e => LoopStepResult.loggedErrorAndTerminated e

/-- The sink configuration and per-attempt environment of
`CotMessenger.send_cot`: which clients exist, the initialized multicast
sockets (by interface IP), and whether each numbered attempt on each sink
would succeed. -/
structure SendConfig where
  takClientConfigured : Bool
  takUdpConfigured : Bool
  multicastEnabled : Bool
  multicastSockets : List String
  tcpAttemptOk : Nat → Bool
  udpAttemptOk : Nat → Bool
  mcastAttemptOk : String → Nat → Bool

/-- Observable actions of `CotMessenger.send_cot`, in program order. -/
inductive SendAction where
  | tcpAttempt (n : Nat) (ok : Bool)
  | udpAttempt (n : Nat) (ok : Bool)
  | mcastAttempt (iface : String) (n : Nat) (ok : Bool)
  | sleep (d : ℚ)
  | criticalLog (sink : String)
  deriving DecidableEq, Repr

/-- The retry loop shared by every sink in `send_cot`: attempts are numbered
from 1; success breaks; a failure before the last attempt sleeps
`retry_delay`; the last failure logs critically.  `fuel` is the number of
attempts still allowed (initially `retry_count`). -/
def attemptSeq (ok : Nat → Bool) (mk : Nat → Bool → SendAction)
    (crit : SendAction) (delay : ℚ) : Nat → Nat → List SendAction
  | _, 0 => []
  | attempt, fuel + 1 =>
      if ok attempt then [mk attempt true]
      else if fuel = 0 then [mk attempt false, crit]
      else mk attempt false :: SendAction.sleep delay ::
        attemptSeq ok mk crit delay (attempt + 1) fuel

/-- `CotMessenger.send_cot`: the unicast block (TCP if a TAK client exists,
else UDP if one exists, else nothing) runs to completion, then the multicast
block runs the same retry schedule once per initialized socket.  Every
exception is caught inside the loops, so the call returns its action trace
and never raises. -/
def sendCot (cfg : SendConfig) (retryCount : Nat) (retryDelay : ℚ) :
    List SendAction :=
  let unicast :=
    if cfg.takClientConfigured then
      attemptSeq cfg.tcpAttemptOk SendAction.tcpAttempt
        (SendAction.criticalLog "tcp") retryDelay 1 retryCount
    else if cfg.takUdpConfigured then
      attemptSeq cfg.udpAttemptOk SendAction.udpAttempt
        (SendAction.criticalLog "udp") retryDelay 1 retryCount
    else []
  let mcast :=
    if cfg.multicastEnabled ∧ cfg.multicastSockets ≠ [] then
      cfg.multicastSockets.flatMap (fun ip =>
        attemptSeq (cfg.mcastAttemptOk ip) (SendAction.mcastAttempt ip)
          (SendAction.criticalLog ("multicast-" ++ ip)) retryDelay 1 retryCount)
    else []
  unicast ++ mcast

/-- Is an action a unicast (TCP or UDP) send attempt? -/
def SendAction.isUnicastAttempt : SendAction → Bool
  | SendAction.tcpAttempt _ _ => true
  | SendAction.udpAttempt _ _ => true
  | _ => false

/-- Is an action a multicast send attempt? -/
def SendAction.isMcastAttempt : SendAction → Bool
  | SendAction.mcastAttempt _ _ _ => true
  | _ => false

/-- Is an action a TCP send attempt? -/
def SendAction.isTcpAttempt : SendAction → Bool
  | SendAction.tcpAttempt _ _ => true
  | _ => false

/-- Is an action a UDP send attempt? -/
def SendAction.isUdpAttempt : SendAction → Bool
  | SendAction.udpAttempt _ _ => true
  | _ => false

/-- Is an action a multicast attempt on a given interface IP? -/
def SendAction.isMcastAttemptOn (ip : String) : SendAction → Bool
  | SendAction.mcastAttempt i _ _ => i = ip
  | _ => false

/-- Number of TCP attempts in a trace. -/
def countTcp (tr : List SendAction) : Nat :=
  (tr.filter SendAction.isTcpAttempt).length

/-- Number of UDP attempts in a trace. -/
def countUdp (tr : List SendAction) : Nat :=
  (tr.filter SendAction.isUdpAttempt).length

/-- Number of multicast attempts on one interface in a trace. -/
def countMcastOn (ip : String) (tr : List SendAction) : Nat :=
  (tr.filter (SendAction.isMcastAttemptOn ip)).length

/-- A telemetry sub-object dict with none of the recognized keys. -/
def emptyItem : TelemetryItem :=
  { mac := none, rssi := none, basicId := none, locationVector := none
    selfId := none, systemMsg := none }

/-- A sub-object carrying only a "Basic ID" with the given tag and id. -/
def basicItem (tag id : String) : TelemetryItem :=
  { emptyItem with
      basicId := some { id_type := some tag, mac := none, rssi := none, id := some id } }

/-- A sub-object carrying only a "Location/Vector Message" position. -/
def locItem (la lo : ℚ) : TelemetryItem :=
  { emptyItem with
      locationVector := some
        { latitude := some la, longitude := some lo, speed := some 0
          vert_speed := some 0, geodetic_altitude := some 100, height_agl := some 0 } }

/-- A fresh manager with the default configuration of `zmq_to_cot`
(`max_drones = 30`, `rate_limit = 1.0`, `inactivity_timeout = 60.0`). -/
def mgr0 : DroneManager :=
  { maxDrones := 30, rateLimit := 1, inactivityTimeout := 60
    drones := [], droneDict := [] }

/-- A status message carrying none of the recognized keys (so its extracted
latitude and longitude are both 0.0). -/
def zeroStatusMsg : StatusMessage :=
  { serial_number := none, gps_lat := none, gps_lon := none, gps_alt := none
    cpu_usage := none, memory_total := none, memory_available := none
    disk_total := none, disk_used := none, temperature := none, uptime := none
    pluto_temp := none, zynq_temp := none }

/-- A throwaway record used only as an `Option.getD` default in concrete
runs whose lookups are in fact always present. -/
def emptyDrone : Drone :=
  Drone.init 0 "" 0 0 0 0 0 0 0 0 "" none none

/-- A parsed telemetry frame for serial "ABC" at a given latitude. -/
def c1Info (la : ℚ) : DroneInfo :=
  parseListMessage [basicItem serialTag "ABC", locItem la (-75)]

/-- The record for serial "ABC" created by ingesting `c1Info 40` at t=0. -/
def c1d0 : Drone :=
  Drone.init 0 "drone-ABC" 40 (-75) 0 0 100 0 0 0 "" none none

/-- The manager after that first ingest. -/
def c1m1v : DroneManager :=
  { mgr0 with drones := ["drone-ABC"], droneDict := [("drone-ABC", c1d0)] }

/-- The record after the tick at t=1 stamps the `last_sent` fields. -/
def c1d1 : Drone :=
  { c1d0 with
    last_sent_lat := c1d0.lat
    last_sent_lon := c1d0.lon
    last_sent_time := 1 }

/-- The manager after the tick at t=1. -/
def c1m2v : DroneManager :=
  { c1m1v with droneDict := [("drone-ABC", c1d1)] }

/-- The record after ingesting `c1Info 41` (one degree north) at t=2. -/
def c1d2 : Drone :=
  Drone.update c1d1 (ingestUpdateArgs (c1Info 41)) 2 0

/-- The manager after that ingest. -/
def c1m3v : DroneManager :=
  { c1m1v with droneDict := [("drone-ABC", c1d2)] }

/-- The record after the tick at t=3. -/
def c1d3 : Drone :=
  { c1d2 with
    last_sent_lat := c1d2.lat
    last_sent_lon := c1d2.lon
    last_sent_time := 3 }

/-- The manager after the tick at t=3. -/
def c1m4v : DroneManager :=
  { c1m1v with droneDict := [("drone-ABC", c1d3)] }

/-- The record after ingesting `c1Info 42` at t=4. -/
def c1d4 : Drone :=
  Drone.update c1d3 (ingestUpdateArgs (c1Info 42)) 4 0

/-- The manager after that ingest. -/
def c1m5v : DroneManager :=
  { c1m1v with droneDict := [("drone-ABC", c1d4)] }

/-- The record after the tick at t=5. -/
def c1d5 : Drone :=
  { c1d4 with
    last_sent_lat := c1d4.lat
    last_sent_lon := c1d4.lon
    last_sent_time := 5 }

/-- The manager after the tick at t=5. -/
def c1m6v : DroneManager :=
  { c1m1v with droneDict := [("drone-ABC", c1d5)] }

/-- A tracked record with nonzero pilot, home, description, MAC, RSSI and
Remote-ID enrichment values, for observing what an update keeps. -/
def droneC5 : Drone :=
  { Drone.init 0 "drone-ABC" 40 (-75) 0 0 100 0 1 2 "desc" (some "AA:BB")
      (some (-42)) with
    home_lat := 3, home_lon := 4, caa_id := "CAA-7", operator_id := "OP-1"
    ua_type := some 2 }

/-- A frame for serial "ABC" carrying only a Basic ID sub-object — no
position, pilot, description, MAC or RSSI values. -/
def infoC5 : DroneInfo :=
  parseListMessage [basicItem serialTag "ABC"]

/-- A manager tracking `droneC5`. -/
def mgrC5 : DroneManager :=
  { maxDrones := 30, rateLimit := 1, inactivityTimeout := 60
    drones := ["drone-ABC"], droneDict := [("drone-ABC", droneC5)] }

/-- The record stored for "drone-ABC" after the Basic-ID-only frame is
ingested into `mgrC5`. -/
def c5Result : Option Drone :=
  match ingestTelemetry mgrC5 infoC5 10 0 with
  | Except.ok p => alookup "drone-ABC" p.1.droneDict
  | Except.error _ => none

/-- A frame whose first Basic ID carries the CAA tag and whose second
carries the serial-number tag. -/
def c4Items : List TelemetryItem :=
  [basicItem caaTag "A", basicItem serialTag "B"]

/-- A record last updated at t=0, so that at t=60 its time-since-update
equals the inactivity timeout exactly. -/
def droneC9 : Drone :=
  Drone.init 0 "drone-X" 40 (-75) 0 0 0 0 0 0 "" (some "") (some 0)

/-- A manager tracking `droneC9` with `inactivity_timeout = 60`. -/
def mgrC9 : DroneManager :=
  { maxDrones := 30, rateLimit := 1, inactivityTimeout := 60
    drones := ["drone-X"], droneDict := [("drone-X", droneC9)] }

/-- A record last updated at t=0 (stale at t=100). -/
def droneOldC7 : Drone :=
  Drone.init 0 "drone-OLD" 1 2 0 0 0 0 0 0 "" none none

/-- A record last updated at t=100 (fresh at t=100). -/
def droneNewC7 : Drone :=
  Drone.init 100 "drone-NEW" 3 4 0 0 0 0 0 0 "" none none

/-- A manager tracking a stale and a fresh record. -/
def mgrC7 : DroneManager :=
  { maxDrones := 30, rateLimit := 1, inactivityTimeout := 60
    drones := ["drone-OLD", "drone-NEW"]
    droneDict := [("drone-OLD", droneOldC7), ("drone-NEW", droneNewC7)] }

/-- A manager at its cap of 2, tracking "drone-A" (oldest) and "drone-B". -/
def mgrC6 : DroneManager :=
  { maxDrones := 2, rateLimit := 1, inactivityTimeout := 60
    drones := ["drone-A", "drone-B"]
    droneDict :=
      [("drone-A", Drone.init 0 "drone-A" 1 1 0 0 0 0 0 0 "" none none),
       ("drone-B", Drone.init 0 "drone-B" 2 2 0 0 0 0 0 0 "" none none)] }

/-- A new record whose insertion into the full `mgrC6` must evict. -/
def droneC6new : Drone :=
  Drone.init 5 "drone-C" 3 3 0 0 0 0 0 0 "" none none

/-- A send configuration whose TCP sink fails every attempt while one
multicast socket succeeds. -/
def cfgW : SendConfig :=
  { takClientConfigured := true, takUdpConfigured := false
    multicastEnabled := true, multicastSockets := ["10.0.0.1"]
    tcpAttemptOk := fun _ => false, udpAttemptOk := fun _ => false
    mcastAttemptOk := fun _ _ => true }

theorem callSystemStatusFromLoop_err (now : ℚ) (sm : StatusMessage) :
    callSystemStatusFromLoop now sm =
      Except.error (PyException.typeError "pluto_temp") := rfl

theorem processStatusMessage_snd (now : ℚ) (sm : StatusMessage) :
    (processStatusMessage now sm).2 =
      Except.error (PyException.typeError "pluto_temp") := by
  simp [processStatusMessage, callSystemStatusFromLoop_err]

theorem processStatusMessage_fst (now : ℚ) (sm : StatusMessage) :
    (processStatusMessage now sm).1 =
      (if sm.gps_lat.getD 0 = 0 ∧ sm.gps_lon.getD 0 = 0
        then [StatusAction.warnedZeroPosition] else [])
      ++ [StatusAction.attemptConstruct] := by
  simp [processStatusMessage, callSystemStatusFromLoop_err]

/-- C10: the host-status emission path can never produce a CoT event.  The
event loop's `SystemStatus(...)` call passes the keywords `pluto_temp` and
`zynq_temp`, which `SystemStatus.__init__` does not accept, so every
construction raises `TypeError`; independently, `SystemStatus.to_cot_xml`
always raises `NameError` on the module-level name `logger` (never bound in
`system_status.py`) before returning the XML bytes; consequently the status
branch never reaches `send_cot`. -/
theorem C10_status_path_always_raises :
    (∀ now sm, callSystemStatusFromLoop now sm =
        Except.error (PyException.typeError "pluto_temp")) ∧
    ("pluto_temp" ∈ statusLoopCallKwargs ∧
      "pluto_temp" ∉ systemStatusAcceptedKwargs ∧
      "zynq_temp" ∈ statusLoopCallKwargs ∧
      "zynq_temp" ∉ systemStatusAcceptedKwargs) ∧
    (∀ s now, SystemStatus.toCotXml s now =
        Except.error (PyException.nameError "logger")) ∧
    (∀ now sm, StatusAction.sentCot ∉ (processStatusMessage now sm).1) := by
  refine ⟨fun now sm => callSystemStatusFromLoop_err now sm, by decide,
    fun s now => rfl, fun now sm => ?_⟩
  rw [processStatusMessage_fst]
  by_cases h : sm.gps_lat.getD 0 = 0 ∧ sm.gps_lon.getD 0 = 0 <;> simp [h]

/-- C3 (amended): the status branch never suppresses a message whose
latitude and longitude are both 0.0; it logs a warning and proceeds to the
`SystemStatus(...)` construction exactly as for any other message.  In this
revision the construction raises for every status message, so `send_cot` is
unreachable on the status path for any message, zero-positioned or not. -/
theorem C3_no_zero_suppression (now : ℚ) (sm : StatusMessage) :
    (sm.gps_lat.getD 0 = 0 ∧ sm.gps_lon.getD 0 = 0 →
        StatusAction.warnedZeroPosition ∈ (processStatusMessage now sm).1) ∧
    StatusAction.attemptConstruct ∈ (processStatusMessage now sm).1 ∧
    StatusAction.sentCot ∉ (processStatusMessage now sm).1 := by
  rw [processStatusMessage_fst]
  by_cases h : sm.gps_lat.getD 0 = 0 ∧ sm.gps_lon.getD 0 = 0 <;> simp [h]

theorem C3_no_zero_suppression_witness :
    StatusAction.warnedZeroPosition ∈ (processStatusMessage 0 zeroStatusMsg).1 ∧
    StatusAction.attemptConstruct ∈ (processStatusMessage 0 zeroStatusMsg).1 ∧
    StatusAction.sentCot ∉ (processStatusMessage 0 zeroStatusMsg).1 :=
  ⟨(C3_no_zero_suppression 0 zeroStatusMsg).1 (by decide),
   (C3_no_zero_suppression 0 zeroStatusMsg).2.1,
   (C3_no_zero_suppression 0 zeroStatusMsg).2.2⟩

/-- C3 counterexample: on a status message whose latitude and longitude are
both 0.0 the branch is not suppressed — its trace is the zero-position
warning followed by the construction attempt, and the branch ends in the
constructor's `TypeError`, not in a clean skip. -/
theorem C3_counterexample :
    zeroStatusMsg.gps_lat.getD 0 = 0 ∧ zeroStatusMsg.gps_lon.getD 0 = 0 ∧
    (processStatusMessage 0 zeroStatusMsg).1 =
      [StatusAction.warnedZeroPosition, StatusAction.attemptConstruct] ∧
    (processStatusMessage 0 zeroStatusMsg).2 =
      Except.error (PyException.typeError "pluto_temp") :=
  ⟨rfl, rfl, rfl, rfl⟩

/-- C2 (amended): the `try`/`except` of `zmq_to_cot` sits outside the
`while True`, so an exception raised while processing one inbound message is
logged at error level and the loop terminates — it does not proceed to the
next poll iteration.  The one genuinely recoverable case is a decoded frame
of unrecognized shape, which is skipped by `continue` (leaving the state
untouched and skipping that iteration's status branch and tick); an
iteration whose body completes reaches the next iteration. -/
theorem C2_exception_ends_loop :
    (∀ (m : DroneManager) st (now fb : ℚ),
        loopStep m (some TelemetryInput.malformedJson) st now fb =
          LoopStepResult.loggedErrorAndTerminated
            (PyException.valueError "invalid JSON")) ∧
    (∀ (m : DroneManager) st (now fb : ℚ),
        loopStep m (some TelemetryInput.otherShape) st now fb =
          LoopStepResult.continues m [] []) ∧
    (∀ (m : DroneManager) (sm : StatusMessage) (now fb : ℚ),
        loopStep m none (some sm) now fb =
          LoopStepResult.loggedErrorAndTerminated
            (PyException.typeError "pluto_temp")) ∧
    (∀ (m : DroneManager) (now fb : ℚ) r, sendUpdates m now = Except.ok r →
        loopStep m none none now fb = LoopStepResult.continues r.1 r.2 []) := by
  refine ⟨fun m st now fb => rfl, fun m st now fb => rfl,
    fun m sm now fb => ?_, fun m now fb r h => ?_⟩
  · simp [loopStep, loopBody, loopTail, processStatusMessage_snd]
  · simp [loopStep, loopBody, loopTail, h]

theorem C2_exception_ends_loop_witness :
    sendUpdates mgr0 7 = Except.ok (mgr0, []) ∧
    loopStep mgr0 none none 7 0 = LoopStepResult.continues mgr0 [] [] :=
  ⟨rfl, C2_exception_ends_loop.2.2.2 mgr0 7 0 (mgr0, []) rfl⟩

/-- C2 counterexample: with the loop running on a fresh manager, the
arrival of one host-status message raises inside the loop body and the
iteration ends in the logged-and-terminated outcome — the loop does not
proceed to the next poll iteration. -/
theorem C2_counterexample :
    loopStep mgr0 none (some zeroStatusMsg) 5 0 =
      LoopStepResult.loggedErrorAndTerminated
        (PyException.typeError "pluto_temp") := rfl

theorem processLocation_id (info : DroneInfo) (lv : LocationVector) :
    (processLocation info lv).id = info.id := rfl

theorem processSystem_id (info : DroneInfo) (s : SystemMsg) :
    (processSystem info s).id = info.id := rfl

theorem processBasicId_id (info : DroneInfo) (b : BasicID) :
    (processBasicId info b).id =
      match info.id with
      | some x => some x
      | none =>
          if b.id_type = some serialTag ∨ b.id_type = some caaTag
          then some (b.id.getD "unknown") else none := by
  unfold processBasicId
  by_cases hs : b.id_type = some serialTag <;>
    by_cases hc : b.id_type = some caaTag <;>
    cases hi : info.id <;> simp_all [serialTag, caaTag]

theorem processItem_id (info : DroneInfo) (it : TelemetryItem) :
    (processItem info it).id =
      match info.id with
      | some x => some x
      | none => acceptedIdOfItem it := by
  unfold processItem acceptedIdOfItem
  cases it.mac <;> cases it.rssi <;> cases it.basicId <;>
    cases it.locationVector <;> cases it.selfId <;> cases it.systemMsg <;>
    cases hi : info.id <;>
    simp_all [processBasicId_id, processLocation, processSystem]

theorem foldl_processItem_id (items : List TelemetryItem) :
    ∀ info : DroneInfo,
      (items.foldl processItem info).id =
        match info.id with
        | some x => some x
        | none => firstAcceptedId items := by
  induction items with
  | nil =>
      intro info
      cases hi : info.id <;> simp [firstAcceptedId, hi]
  | cons it its ih =>
      intro info
      rw [List.foldl_cons, ih, processItem_id]
      cases hi : info.id with
      | some x => simp [firstAcceptedId]
      | none =>
          cases ha : acceptedIdOfItem it <;>
            simp [firstAcceptedId, List.findSome?_cons, ha]

theorem findSome?_append_id (f : TelemetryItem → Option String)
    (l₁ l₂ : List TelemetryItem) :
    List.findSome? f (l₁ ++ l₂) =
      match List.findSome? f l₁ with
      | some x => some x
      | none => List.findSome? f l₂ := by
  induction l₁ with
  | nil => simp
  | cons a l ih =>
      rw [List.cons_append, List.findSome?_cons, List.findSome?_cons]
      cases f a <;> simp [ih]

/-- C4 (amended): the canonical identifier is the id of the first Basic ID
sub-object whose tag is the serial-number tag or the CAA-registration tag,
in stream order — the source gives the serial-number tag no priority over an
earlier CAA-tagged sub-object.  Once an identifier is stored it is never
overwritten by later sub-objects, and parsing the same sub-objects again
changes nothing, so the normalizer is idempotent over repeated Basic ID
sub-objects. -/
theorem C4_first_accepted_tag_wins :
    (∀ items, (parseListMessage items).id = firstAcceptedId items) ∧
    (∀ (info : DroneInfo) it, info.id ≠ none →
        (processItem info it).id = info.id) ∧
    (∀ items,
        (parseListMessage (items ++ items)).id = (parseListMessage items).id) := by
  have hmain : ∀ items, (parseListMessage items).id = firstAcceptedId items := by
    intro items
    unfold parseListMessage
    rw [foldl_processItem_id]
    rfl
  refine ⟨hmain, ?_, ?_⟩
  · intro info it h
    rw [processItem_id]
    cases hi : info.id with
    | some x => rfl
    | none => exact absurd hi h
  · intro items
    rw [hmain, hmain]
    unfold firstAcceptedId
    rw [findSome?_append_id]
    cases items.findSome? acceptedIdOfItem <;> rfl

theorem C4_first_accepted_tag_wins_witness :
    (parseListMessage c4Items).id = firstAcceptedId c4Items ∧
    (processItem infoC5 (basicItem serialTag "ZZZ")).id = infoC5.id :=
  ⟨C4_first_accepted_tag_wins.1 c4Items,
   C4_first_accepted_tag_wins.2.1 infoC5 (basicItem serialTag "ZZZ") (by decide)⟩

/-- C4 counterexample: in a frame whose first Basic ID carries the CAA tag
with id "A" and whose second carries the serial-number tag with id "B", the
source stores "A" — the claim's serial-priority rule would store "B". -/
theorem C4_counterexample :
    (parseListMessage c4Items).id = some "A" ∧
    specPriorityId c4Items = some "B" := by decide

/-- C5 (amended): when an inbound message updates an existing record, the
base fields — position, speeds, altitude, AGL height, pilot and home
coordinates, description, MAC, RSSI, index, runtime, id_type — are
overwritten unconditionally with the message value or its call-site default
(0, empty string, or the `.get` result, which may be Python None) when the
message does not carry them; home coordinates are always reset to 0 because
the call site never passes them.  Only the truthiness-guarded Remote-ID
enrichment fields (UA type and name, operator fields, op-status, height
type, E/W direction, heading, speed multiplier, pressure altitude,
accuracies, timestamps, CAA id) keep their prior values when absent. -/
theorem C5_update_overwrites_base_fields (d : Drone) (info : DroneInfo)
    (now fb : ℚ) :
    (d.update (ingestUpdateArgs info) now fb).lat = info.lat.getD 0 ∧
    (d.update (ingestUpdateArgs info) now fb).lon = info.lon.getD 0 ∧
    (d.update (ingestUpdateArgs info) now fb).speed = info.speed.getD 0 ∧
    (d.update (ingestUpdateArgs info) now fb).vspeed = info.vspeed.getD 0 ∧
    (d.update (ingestUpdateArgs info) now fb).alt = info.alt.getD 0 ∧
    (d.update (ingestUpdateArgs info) now fb).height = info.height.getD 0 ∧
    (d.update (ingestUpdateArgs info) now fb).pilot_lat = info.pilot_lat.getD 0 ∧
    (d.update (ingestUpdateArgs info) now fb).pilot_lon = info.pilot_lon.getD 0 ∧
    (d.update (ingestUpdateArgs info) now fb).home_lat = 0 ∧
    (d.update (ingestUpdateArgs info) now fb).home_lon = 0 ∧
    (d.update (ingestUpdateArgs info) now fb).description = info.description.getD "" ∧
    (d.update (ingestUpdateArgs info) now fb).mac = info.macArg ∧
    (d.update (ingestUpdateArgs info) now fb).rssi = info.rssiArg ∧
    (d.update (ingestUpdateArgs info) now fb).id_type = "" ∧
    (d.update (ingestUpdateArgs info) now fb).index = 0 ∧
    (d.update (ingestUpdateArgs info) now fb).runtime = 0 ∧
    (d.update (ingestUpdateArgs info) now fb).last_update_time = now ∧
    (d.update (ingestUpdateArgs info) now fb).ua_type = d.ua_type ∧
    (d.update (ingestUpdateArgs info) now fb).ua_type_name = d.ua_type_name ∧
    (d.update (ingestUpdateArgs info) now fb).operator_id_type = d.operator_id_type ∧
    (d.update (ingestUpdateArgs info) now fb).operator_id = d.operator_id ∧
    (d.update (ingestUpdateArgs info) now fb).op_status = d.op_status ∧
    (d.update (ingestUpdateArgs info) now fb).height_type = d.height_type ∧
    (d.update (ingestUpdateArgs info) now fb).ew_dir = d.ew_dir ∧
    (d.update (ingestUpdateArgs info) now fb).speed_multiplier = d.speed_multiplier ∧
    (d.update (ingestUpdateArgs info) now fb).pressure_altitude = d.pressure_altitude ∧
    (d.update (ingestUpdateArgs info) now fb).vertical_accuracy = d.vertical_accuracy ∧
    (d.update (ingestUpdateArgs info) now fb).horizontal_accuracy = d.horizontal_accuracy ∧
    (d.update (ingestUpdateArgs info) now fb).baro_accuracy = d.baro_accuracy ∧
    (d.update (ingestUpdateArgs info) now fb).speed_accuracy = d.speed_accuracy ∧
    (d.update (ingestUpdateArgs info) now fb).timestamp = d.timestamp ∧
    (d.update (ingestUpdateArgs info) now fb).timestamp_accuracy = d.timestamp_accuracy ∧
    (d.update (ingestUpdateArgs info) now fb).caa_id = d.caa_id := by
  simp [Drone.update, ingestUpdateArgs, UpdateArgs.defaults]

/-- C5 counterexample: ingesting a frame that carries only a Basic ID into
a manager tracking a record with nonzero pilot and home coordinates,
description, MAC and RSSI leaves the record with pilot position (0,0), home
position (0,0), empty description, MAC None and RSSI None — the prior values
are not kept; the CAA id, a guarded enrichment field, is kept. -/
theorem C5_counterexample :
    c5Result.map (fun d => d.pilot_lat) = some 0 ∧
    c5Result.map (fun d => d.pilot_lon) = some 0 ∧
    c5Result.map (fun d => d.home_lat) = some 0 ∧
    c5Result.map (fun d => d.description) = some "" ∧
    c5Result.map (fun d => d.mac) = some none ∧
    c5Result.map (fun d => d.rssi) = some none ∧
    c5Result.map (fun d => d.caa_id) = some "CAA-7" ∧
    droneC5.pilot_lat = 1 ∧ droneC5.pilot_lon = 2 ∧ droneC5.home_lat = 3 ∧
    droneC5.description = "desc" ∧ droneC5.mac = some "AA:BB" ∧
    droneC5.rssi = some (-42) := by decide



theorem alookup_eq_none {β : Type} (k : String) (l : List (String × β)) :
    alookup k l = none ↔ k ∉ l.map Prod.fst := by
  induction l with
  | nil => simp [alookup]
  | cons p ps ih =>
      simp only [alookup, List.map_cons, List.mem_cons]
      by_cases h : p.1 = k
      · simp [h]
      · simp only [if_neg h, ih]
        constructor
        · intro hn hmem
          rcases hmem with he | hm
          · exact h he.symm
          · exact hn hm
        · intro hn hm
          exact hn (Or.inr hm)

theorem alookup_isSome_iff {β : Type} (k : String) (l : List (String × β)) :
    (alookup k l).isSome = true ↔ k ∈ l.map Prod.fst := by
  induction l with
  | nil => simp [alookup]
  | cons p ps ih =>
      simp only [alookup, List.map_cons, List.mem_cons]
      by_cases h : p.1 = k
      · simp [h]
      · simp only [if_neg h, ih]
        constructor
        · intro hm
          exact Or.inr hm
        · intro hm
          rcases hm with he | hm
          · exact absurd he.symm h
          · exact hm

theorem alookup_append {β : Type} (k : String) (l₁ l₂ : List (String × β)) :
    alookup k (l₁ ++ l₂) =
      match alookup k l₁ with
      | some v => some v
      | none => alookup k l₂ := by
  induction l₁ with
  | nil => rfl
  | cons p ps ih =>
      by_cases h : p.1 = k <;> simp [alookup, h, ih]

theorem aset_keys {β : Type} (k : String) (v : β) (l : List (String × β)) :
    (aset k v l).map Prod.fst = l.map Prod.fst := by
  induction l with
  | nil => rfl
  | cons p ps ih =>
      by_cases h : p.1 = k
      · simp [aset, h, ih]
      · simp [aset, h, ih]

theorem alookup_aset_ne {β : Type} (k k' : String) (v : β)
    (l : List (String × β)) (h : k' ≠ k) :
    alookup k' (aset k v l) = alookup k' l := by
  induction l with
  | nil => rfl
  | cons p ps ih =>
      by_cases hp : p.1 = k
      · simp [aset, hp, alookup, Ne.symm h, ih]
      · by_cases hq : p.1 = k' <;> simp [aset, hp, alookup, hq, ih, h]

theorem mem_keys_aerase {β : Type} (k k₀ : String) (l : List (String × β))
    (hnd : (l.map Prod.fst).Nodup) :
    k₀ ∈ (aerase k l).map Prod.fst ↔ k₀ ≠ k ∧ k₀ ∈ l.map Prod.fst := by
  induction l with
  | nil => simp [aerase]
  | cons p ps ih =>
      rw [List.map_cons, List.nodup_cons] at hnd
      by_cases h : p.1 = k
      · subst h
        simp only [aerase, if_pos rfl]
        constructor
        · intro hm
          exact ⟨fun he => hnd.1 (he ▸ hm), List.mem_cons_of_mem _ hm⟩
        · rintro ⟨hne, hm⟩
          rcases List.mem_cons.mp hm with he | hm
          · exact absurd he hne
          · exact hm
      · simp only [aerase, if_neg h, List.map_cons, List.mem_cons, ih hnd.2]
        constructor
        · rintro (he | ⟨hne, hm⟩)
          · exact ⟨fun hk => h (he ▸ hk), Or.inl he⟩
          · exact ⟨hne, Or.inr hm⟩
        · rintro ⟨hne, he | hm⟩
          · exact Or.inl he
          · exact Or.inr ⟨hne, hm⟩

theorem aerase_keys_subset {β : Type} (k x : String) (l : List (String × β))
    (hx : x ∈ (aerase k l).map Prod.fst) : x ∈ l.map Prod.fst := by
  induction l with
  | nil => simp [aerase] at hx
  | cons p ps ih =>
      by_cases h : p.1 = k
      · rw [show aerase k (p :: ps) = ps from by simp [aerase, h]] at hx
        rw [List.map_cons]
        exact List.mem_cons_of_mem _ hx
      · rw [show aerase k (p :: ps) = p :: aerase k ps from by simp [aerase, h],
          List.map_cons] at hx
        rw [List.map_cons]
        rcases List.mem_cons.mp hx with he | hm
        · exact List.mem_cons.mpr (Or.inl he)
        · exact List.mem_cons.mpr (Or.inr (ih hm))

theorem aerase_keys_nodup {β : Type} (k : String) (l : List (String × β))
    (hnd : (l.map Prod.fst).Nodup) : ((aerase k l).map Prod.fst).Nodup := by
  induction l with
  | nil => simp [aerase]
  | cons p ps ih =>
      rw [List.map_cons, List.nodup_cons] at hnd
      by_cases h : p.1 = k
      · simpa [aerase, h] using hnd.2
      · rw [show aerase k (p :: ps) = p :: aerase k ps by simp [aerase, h],
          List.map_cons, List.nodup_cons]
        exact ⟨fun hm => hnd.1 (aerase_keys_subset k p.1 ps hm), ih hnd.2⟩

theorem alookup_aerase_self {β : Type} (k : String) (l : List (String × β))
    (hnd : (l.map Prod.fst).Nodup) : alookup k (aerase k l) = none := by
  rw [alookup_eq_none]
  intro hmem
  exact ((mem_keys_aerase k k l hnd).mp hmem).1 rfl

theorem alookup_aerase_ne {β : Type} (k k' : String) (l : List (String × β))
    (h : k' ≠ k) : alookup k' (aerase k l) = alookup k' l := by
  induction l with
  | nil => rfl
  | cons p ps ih =>
      by_cases hp : p.1 = k
      · simp [aerase, hp, alookup, Ne.symm h, ih]
      · by_cases hq : p.1 = k' <;> simp [aerase, hp, alookup, hq, ih, h]

theorem alookup_aerase_none {β : Type} (k k₂ : String) (l : List (String × β))
    (h : alookup k l = none) : alookup k (aerase k₂ l) = none := by
  rw [alookup_eq_none] at h ⊢
  intro hmem
  exact h (aerase_keys_subset k₂ k l hmem)

theorem foldl_aerase_preserves_none {β : Type} (k : String) :
    ∀ (rs : List String) (l : List (String × β)), alookup k l = none →
      alookup k (rs.foldl (fun acc k₂ => aerase k₂ acc) l) = none := by
  intro rs
  induction rs with
  | nil => intro l h; exact h
  | cons r rs ih =>
      intro l h
      exact ih (aerase r l) (alookup_aerase_none k r l h)

theorem foldl_aerase_lookup_none {β : Type} (k : String) :
    ∀ (rms : List String) (l : List (String × β)),
      (l.map Prod.fst).Nodup → k ∈ rms →
      alookup k (rms.foldl (fun acc k₂ => aerase k₂ acc) l) = none := by
  intro rms
  induction rms with
  | nil => intro l _ hk; exact absurd hk (List.not_mem_nil k)
  | cons r rs ih =>
      intro l hnd hk
      rcases List.mem_cons.mp hk with he | hm
      · subst he
        exact foldl_aerase_preserves_none k rs (aerase k l)
          (alookup_aerase_self k l hnd)
      · exact ih (aerase r l) (aerase_keys_nodup r l hnd) hm

theorem mem_removeFirst_subset (q : List String) (k x : String)
    (hx : x ∈ removeFirst q k) : x ∈ q := by
  induction q with
  | nil => simp [removeFirst] at hx
  | cons a as ih =>
      by_cases h : a = k
      · exact List.mem_cons_of_mem _ (by simpa [removeFirst, h] using hx)
      · rcases List.mem_cons.mp (by simpa [removeFirst, h] using hx) with he | hm
        · exact he ▸ List.mem_cons_self a as
        · exact List.mem_cons_of_mem _ (ih hm)

theorem removeFirst_nodup (q : List String) (k : String) (h : q.Nodup) :
    (removeFirst q k).Nodup := by
  induction q with
  | nil => simp [removeFirst]
  | cons a as ih =>
      rw [List.nodup_cons] at h
      by_cases ha : a = k
      · simpa [removeFirst, ha] using h.2
      · rw [show removeFirst (a :: as) k = a :: removeFirst as k by
            simp [removeFirst, ha], List.nodup_cons]
        exact ⟨fun hm => h.1 (mem_removeFirst_subset as k a hm), ih h.2⟩

theorem not_mem_removeFirst_self (q : List String) (k : String) (h : q.Nodup) :
    k ∉ removeFirst q k := by
  induction q with
  | nil => simp [removeFirst]
  | cons a as ih =>
      rw [List.nodup_cons] at h
      by_cases ha : a = k
      · subst ha
        simpa [removeFirst] using h.1
      · rw [show removeFirst (a :: as) k = a :: removeFirst as k by
            simp [removeFirst, ha]]
        intro hm
        rcases List.mem_cons.mp hm with he | hm
        · exact ha he.symm
        · exact ih h.2 hm

theorem mem_removeFirst_of_ne (q : List String) (k x : String) (h : x ≠ k)
    (hx : x ∈ q) : x ∈ removeFirst q k := by
  induction q with
  | nil => simp at hx
  | cons a as ih =>
      by_cases ha : a = k
      · rw [show removeFirst (a :: as) k = as by simp [removeFirst, ha]]
        rcases List.mem_cons.mp hx with he | hm
        · exact absurd (he.trans ha) h
        · exact hm
      · rw [show removeFirst (a :: as) k = a :: removeFirst as k by
            simp [removeFirst, ha]]
        rcases List.mem_cons.mp hx with he | hm
        · exact he ▸ List.mem_cons_self a _
        · exact List.mem_cons_of_mem _ (ih hm)

theorem foldl_removeFirst_preserves_not_mem (k : String) :
    ∀ (rs : List String) (q : List String), k ∉ q →
      k ∉ rs.foldl removeFirst q := by
  intro rs
  induction rs with
  | nil => intro q h; exact h
  | cons r rs ih =>
      intro q h
      exact ih (removeFirst q r) (fun hm => h (mem_removeFirst_subset q r k hm))

theorem foldl_removeFirst_not_mem (k : String) :
    ∀ (rms : List String) (q : List String), q.Nodup → k ∈ rms →
      k ∉ rms.foldl removeFirst q := by
  intro rms
  induction rms with
  | nil => intro q _ hk; exact absurd hk (List.not_mem_nil k)
  | cons r rs ih =>
      intro q hnd hk
      rcases List.mem_cons.mp hk with he | hm
      · subst he
        exact foldl_removeFirst_preserves_not_mem k rs (removeFirst q k)
          (not_mem_removeFirst_self q k hnd)
      · exact ih (removeFirst q r) (removeFirst_nodup q r hnd) hm

/-- C6: the live set holds at most `max_drones` identifiers, an identifier
is queued exactly when it is a dict key (with no duplicates on either side),
and these invariants are preserved by `update_or_add_drone`; inserting a new
identifier while full removes exactly the least-recently-inserted identifier
(the deque head), preserves the insertion order of the remaining
identifiers, stores the new record with `last_sent_time = 0`, and emits no
CoT event (the operation's event list is empty). -/
theorem C6_liveset_cap (m : DroneManager) (id : String) (dd : Drone)
    (now fb : ℚ) (hinv : ManagerInv m) (hpos : 1 ≤ m.maxDrones) :
    ∃ r, updateOrAddDrone m id dd now fb = Except.ok r ∧
      ManagerInv r.1 ∧ r.2 = [] ∧
      (alookup id m.droneDict = none → m.drones.length = m.maxDrones →
        ∃ oldest rest, m.drones = oldest :: rest ∧
          r.1.drones = rest ++ [id] ∧
          alookup oldest r.1.droneDict = none ∧
          alookup id r.1.droneDict = some { dd with last_sent_time := 0 }) := by
  obtain ⟨hqnd, hknd, hqk, hkq, hlen⟩ := hinv
  cases hl : alookup id m.droneDict with
  | some d =>
      refine ⟨({ m with
          droneDict := aset id (d.update (managerUpdateArgs dd) now fb)
            m.droneDict }, []), ?_, ?_, rfl, ?_⟩
      · simp only [updateOrAddDrone, hl]
      · exact ⟨hqnd, by rw [aset_keys]; exact hknd,
          fun k hk => by rw [aset_keys]; exact hqk k hk,
          fun k hk => hkq k (by rw [aset_keys] at hk; exact hk), hlen⟩
      · intro h0
        exact absurd h0 (Option.some_ne_none d)
  | none =>
      have hidq : id ∉ m.drones := fun hm =>
        (alookup_eq_none id m.droneDict).mp hl (hqk id hm)
      have hidkeys : id ∉ m.droneDict.map Prod.fst :=
        (alookup_eq_none id m.droneDict).mp hl
      by_cases hfull : m.drones.length ≥ m.maxDrones
      · have hlen_eq : m.drones.length = m.maxDrones := le_antisymm hlen hfull
        cases hq : m.drones with
        | nil =>
            exfalso
            rw [hq] at hlen_eq
            simp at hlen_eq
            omega
        | cons oldest rest =>
            have hqnd' : (oldest :: rest).Nodup := hq ▸ hqnd
            have honr : oldest ∉ rest := (List.nodup_cons.mp hqnd').1
            have hrnd : rest.Nodup := (List.nodup_cons.mp hqnd').2
            have holdkeys : oldest ∈ m.droneDict.map Prod.fst :=
              hqk oldest (by rw [hq]; exact List.mem_cons_self _ _)
            have hoid : oldest ≠ id := fun he => hidkeys (he ▸ holdkeys)
            have hidr : id ∉ rest := fun hm =>
              hidq (by rw [hq]; exact List.mem_cons_of_mem _ hm)
            refine ⟨({ m with
                drones := rest ++ [id]
                droneDict := aerase oldest m.droneDict
                  ++ [(id, { dd with last_sent_time := 0 })] }, []), ?_, ?_, rfl, ?_⟩
            · simp only [updateOrAddDrone, hl, hq]
              rw [if_pos (hq ▸ hfull)]
            · refine ⟨?_, ?_, ?_, ?_, ?_⟩
              · exact List.Nodup.append hrnd (List.nodup_singleton id)
                  (by intro a ha hb
                      rw [List.mem_singleton] at hb
                      subst hb
                      exact hidr ha)
              · rw [List.map_append]
                refine List.Nodup.append (aerase_keys_nodup oldest m.droneDict hknd)
                  (by simp) ?_
                intro a ha hb
                simp only [List.map_cons, List.map_nil, List.mem_singleton] at hb
                subst hb
                exact hidkeys (aerase_keys_subset oldest a m.droneDict ha)
              · intro k hk
                rw [List.map_append]
                rcases List.mem_append.mp hk with hk | hk
                · refine List.mem_append.mpr (Or.inl ?_)
                  refine (mem_keys_aerase oldest k m.droneDict hknd).mpr ⟨?_, ?_⟩
                  · intro he
                    exact honr (he ▸ hk)
                  · exact hqk k (by rw [hq]; exact List.mem_cons_of_mem _ hk)
                · exact List.mem_append.mpr (Or.inr (by simpa using hk))
              · intro k hk
                rw [List.map_append] at hk
                rcases List.mem_append.mp hk with hk | hk
                · obtain ⟨hne, hkk⟩ :=
                    (mem_keys_aerase oldest k m.droneDict hknd).mp hk
                  have : k ∈ m.drones := hkq k hkk
                  rw [hq] at this
                  rcases List.mem_cons.mp this with he | hm
                  · exact absurd he hne
                  · exact List.mem_append.mpr (Or.inl hm)
                · exact List.mem_append.mpr (Or.inr (by simpa using hk))
              · rw [List.length_append]
                rw [hq] at hlen_eq
                simp only [List.length_cons] at hlen_eq
                simp
                omega
            · intro _ _
              refine ⟨oldest, rest, rfl, rfl, ?_, ?_⟩
              · rw [alookup_append, alookup_aerase_self oldest m.droneDict hknd]
                simp [alookup, Ne.symm hoid]
              · rw [alookup_append, alookup_aerase_none id oldest m.droneDict hl]
                simp [alookup]
      · refine ⟨({ m with
            drones := m.drones ++ [id]
            droneDict := m.droneDict
              ++ [(id, { dd with last_sent_time := 0 })] }, []), ?_, ?_, rfl, ?_⟩
        · simp only [updateOrAddDrone, hl]
          rw [if_neg hfull]
        · refine ⟨?_, ?_, ?_, ?_, ?_⟩
          · exact List.Nodup.append hqnd (List.nodup_singleton id)
              (by intro a ha hb
                  rw [List.mem_singleton] at hb
                  subst hb
                  exact hidq ha)
          · rw [List.map_append]
            refine List.Nodup.append hknd (by simp) ?_
            intro a ha hb
            simp only [List.map_cons, List.map_nil, List.mem_singleton] at hb
            subst hb
            exact hidkeys ha
          · intro k hk
            rw [List.map_append]
            rcases List.mem_append.mp hk with hk | hk
            · exact List.mem_append.mpr (Or.inl (hqk k hk))
            · exact List.mem_append.mpr (Or.inr (by simpa using hk))
          · intro k hk
            rw [List.map_append] at hk
            rcases List.mem_append.mp hk with hk | hk
            · exact List.mem_append.mpr (Or.inl (hkq k hk))
            · exact List.mem_append.mpr (Or.inr (by simpa using hk))
          · rw [List.length_append]
            simp
            omega
        · intro _ heq
          exact absurd (heq ▸ le_refl m.drones.length) hfull

theorem C6_liveset_cap_witness :
    ∃ r, updateOrAddDrone mgrC6 "drone-C" droneC6new 5 0 = Except.ok r ∧
      ManagerInv r.1 ∧ r.2 = [] ∧
      (alookup "drone-C" mgrC6.droneDict = none →
        mgrC6.drones.length = mgrC6.maxDrones →
        ∃ oldest rest, mgrC6.drones = oldest :: rest ∧
          r.1.drones = rest ++ ["drone-C"] ∧
          alookup oldest r.1.droneDict = none ∧
          alookup "drone-C" r.1.droneDict =
            some { droneC6new with last_sent_time := 0 }) :=
  C6_liveset_cap mgrC6 "drone-C" droneC6new 5 0 (by decide) (by decide)

theorem tickOne_retire_iff (timeout rate now : ℚ) (d : Drone) :
    (tickOne timeout rate now d).1 = true ↔
      now - d.last_update_time > timeout := by
  unfold tickOne
  by_cases h1 : now - d.last_update_time > timeout
  · simp [h1]
  · by_cases h2 : now - d.last_sent_time ≥ rate <;> simp [h1, h2]

theorem tickOne_events_retired (timeout rate now : ℚ) (d : Drone)
    (h : now - d.last_update_time > timeout) :
    (tickOne timeout rate now d).2.1 = [] := by
  unfold tickOne
  rw [if_pos h]

theorem tickOne_event_shape (timeout rate now : ℚ) (d : Drone) (e : CotEvent)
    (he : e ∈ (tickOne timeout rate now d).2.1) :
    e = droneCotEvent d now (some (timeout - (now - d.last_update_time))) ∨
    e = pilotCotEvent d now (some (timeout - (now - d.last_update_time))) ∨
    e = homeCotEvent d now (some (timeout - (now - d.last_update_time))) := by
  unfold tickOne at he
  by_cases h1 : now - d.last_update_time > timeout
  · rw [if_pos h1] at he
    simp at he
  · rw [if_neg h1] at he
    by_cases h2 : now - d.last_sent_time ≥ rate
    · rw [if_pos h2] at he
      by_cases h3 : d.pilot_lat ≠ 0 ∨ d.pilot_lon ≠ 0 <;>
        by_cases h4 : d.home_lat ≠ 0 ∨ d.home_lon ≠ 0 <;>
        simp [h3, h4] at he <;> tauto
    · rw [if_neg h2] at he
      simp at he

theorem tickOne_event_times (timeout rate now : ℚ) (d : Drone) (e : CotEvent)
    (he : e ∈ (tickOne timeout rate now d).2.1) :
    e.time = now ∧ e.start = now ∧
    e.stale = now + (timeout - (now - d.last_update_time)) := by
  rcases tickOne_event_shape timeout rate now d e he with h | h | h <;>
    subst h <;> simp [droneCotEvent, pilotCotEvent, homeCotEvent]

theorem sendUpdatesGo_spec (timeout rate now : ℚ) :
    ∀ (keys : List String) (dict : List (String × Drone)),
      keys.Nodup →
      (∀ k ∈ keys, (alookup k dict).isSome = true) →
      ∃ rms evs dictF,
        sendUpdatesGo timeout rate now dict keys = Except.ok (rms, evs, dictF) ∧
        (∀ k₀, k₀ ∈ rms ↔ ∃ d₀, alookup k₀ dict = some d₀ ∧ k₀ ∈ keys ∧
            now - d₀.last_update_time > timeout) ∧
        (∀ k₀ e, (k₀, e) ∈ evs → ∃ d₀, alookup k₀ dict = some d₀ ∧ k₀ ∈ keys ∧
            ¬(now - d₀.last_update_time > timeout) ∧
            e ∈ (tickOne timeout rate now d₀).2.1) ∧
        dictF.map Prod.fst = dict.map Prod.fst := by
  intro keys
  induction keys with
  | nil =>
      intro dict _ _
      refine ⟨[], [], dict, rfl, ?_, ?_, rfl⟩
      · intro k₀
        simp
      · intro k₀ e h
        simp at h
  | cons k ks ih =>
      intro dict hnd hpres
      rw [List.nodup_cons] at hnd
      obtain ⟨d, hd⟩ :=
        Option.isSome_iff_exists.mp (hpres k (List.mem_cons_self k ks))
      rcases htick : tickOne timeout rate now d with ⟨rm, evK, dUpd⟩
      cases rm with
      | true =>
          have hret : now - d.last_update_time > timeout :=
            (tickOne_retire_iff timeout rate now d).mp (by rw [htick])
          have hevK : evK = [] := by
            have := tickOne_events_retired timeout rate now d hret
            rw [htick] at this
            exact this
          have hpres' : ∀ k' ∈ ks, (alookup k' dict).isSome = true :=
            fun k' hk' => hpres k' (List.mem_cons_of_mem _ hk')
          obtain ⟨rms', evs', dictF, hgo, hrms, hevs, hkeysF⟩ :=
            ih dict hnd.2 hpres'
          refine ⟨k :: rms', evs', dictF, ?_, ?_, ?_, hkeysF⟩
          · simp [sendUpdatesGo, hd, htick, hgo, hevK]
          · intro k₀
            constructor
            · intro hmem
              rcases List.mem_cons.mp hmem with he | hm
              · subst he
                exact ⟨d, hd, List.mem_cons_self _ _, hret⟩
              · obtain ⟨d₀, hd₀, hk₀, hr₀⟩ := (hrms k₀).mp hm
                exact ⟨d₀, hd₀, List.mem_cons_of_mem _ hk₀, hr₀⟩
            · rintro ⟨d₀, hd₀, hk₀, hr₀⟩
              rcases List.mem_cons.mp hk₀ with he | hm
              · subst he
                exact List.mem_cons_self _ _
              · exact List.mem_cons_of_mem _ ((hrms k₀).mpr ⟨d₀, hd₀, hm, hr₀⟩)
          · intro k₀ e hke
            obtain ⟨d₀, hd₀, hk₀, hnr₀, he₀⟩ := hevs k₀ e hke
            exact ⟨d₀, hd₀, List.mem_cons_of_mem _ hk₀, hnr₀, he₀⟩
      | false =>
          have hnret : ¬(now - d.last_update_time > timeout) := by
            intro hc
            have := (tickOne_retire_iff timeout rate now d).mpr hc
            rw [htick] at this
            exact Bool.false_ne_true this
          have hlk : ∀ k' ∈ ks, alookup k' (aset k dUpd dict) = alookup k' dict := by
            intro k' hk'
            exact alookup_aset_ne k k' dUpd dict (fun he => hnd.1 (he ▸ hk'))
          have hpres' : ∀ k' ∈ ks, (alookup k' (aset k dUpd dict)).isSome = true := by
            intro k' hk'
            rw [hlk k' hk']
            exact hpres k' (List.mem_cons_of_mem _ hk')
          obtain ⟨rms', evs', dictF, hgo, hrms, hevs, hkeysF⟩ :=
            ih (aset k dUpd dict) hnd.2 hpres'
          refine ⟨rms', evK.map (fun e => (k, e)) ++ evs', dictF, ?_, ?_, ?_, ?_⟩
          · simp [sendUpdatesGo, hd, htick, hgo]
          · intro k₀
            constructor
            · intro hmem
              obtain ⟨d₀, hd₀, hk₀, hr₀⟩ := (hrms k₀).mp hmem
              rw [hlk k₀ hk₀] at hd₀
              exact ⟨d₀, hd₀, List.mem_cons_of_mem _ hk₀, hr₀⟩
            · rintro ⟨d₀, hd₀, hk₀, hr₀⟩
              rcases List.mem_cons.mp hk₀ with he | hm
              · subst he
                rw [hd] at hd₀
                cases hd₀
                exact absurd hr₀ hnret
              · refine (hrms k₀).mpr ⟨d₀, ?_, hm, hr₀⟩
                rw [hlk k₀ hm]
                exact hd₀
          · intro k₀ e hke
            rcases List.mem_append.mp hke with hmap | hmem
            · obtain ⟨e₀, he₀, heq⟩ := List.mem_map.mp hmap
              cases heq
              refine ⟨d, hd, List.mem_cons_self k ks, hnret, ?_⟩
              rw [htick]
              exact he₀
            · obtain ⟨d₀, hd₀, hk₀, hnr₀, he₀⟩ := hevs k₀ e hmem
              rw [hlk k₀ hk₀] at hd₀
              exact ⟨d₀, hd₀, List.mem_cons_of_mem _ hk₀, hnr₀, he₀⟩
          · rw [hkeysF, aset_keys]

theorem sendUpdates_spec (m : DroneManager) (now : ℚ)
    (hqnd : m.drones.Nodup) (hknd : (m.droneDict.map Prod.fst).Nodup)
    (hpres : ∀ k ∈ m.drones, (alookup k m.droneDict).isSome = true) :
    ∃ m' evs, sendUpdates m now = Except.ok (m', evs) ∧
      (∀ k e, (k, e) ∈ evs → ∃ d, alookup k m.droneDict = some d ∧
          k ∈ m.drones ∧ ¬(now - d.last_update_time > m.inactivityTimeout) ∧
          e ∈ (tickOne m.inactivityTimeout m.rateLimit now d).2.1) ∧
      (∀ k d, k ∈ m.drones → alookup k m.droneDict = some d →
          now - d.last_update_time > m.inactivityTimeout →
          k ∉ m'.drones ∧ alookup k m'.droneDict = none ∧
          ∀ e, (k, e) ∉ evs) := by
  obtain ⟨rms, evs, dictF, hgo, hrms, hevs, hkeysF⟩ :=
    sendUpdatesGo_spec m.inactivityTimeout m.rateLimit now m.drones m.droneDict
      hqnd hpres
  refine ⟨{ m with
      drones := rms.foldl removeFirst m.drones
      droneDict := rms.foldl (fun acc k => aerase k acc) dictF }, evs, ?_, ?_, ?_⟩
  · simp only [sendUpdates, hgo]
  · exact hevs
  · intro k d hk hd hto
    have hkrms : k ∈ rms := (hrms k).mpr ⟨d, hd, hk, hto⟩
    refine ⟨?_, ?_, ?_⟩
    · exact foldl_removeFirst_not_mem k rms m.drones hqnd hkrms
    · exact foldl_aerase_lookup_none k rms dictF (hkeysF ▸ hknd) hkrms
    · intro e hke
      obtain ⟨d₀, hd₀, _, hnr₀, _⟩ := hevs k e hke
      rw [hd] at hd₀
      cases hd₀
      exact hnr₀ hto

/-- C7: if a record's time-since-update strictly exceeds the inactivity
timeout when a tick runs, then after that tick the record is gone from both
the insertion-order queue and the identifier map, and the tick emits no
drone, pilot, or home event for it (no event tagged with its key appears in
the tick's output). -/
theorem C7_retirement (m : DroneManager) (now : ℚ) (k : String) (d : Drone)
    (hqnd : m.drones.Nodup) (hknd : (m.droneDict.map Prod.fst).Nodup)
    (hpres : ∀ k' ∈ m.drones, (alookup k' m.droneDict).isSome = true)
    (hk : k ∈ m.drones) (hd : alookup k m.droneDict = some d)
    (hto : now - d.last_update_time > m.inactivityTimeout) :
    ∃ m' evs, sendUpdates m now = Except.ok (m', evs) ∧
      k ∉ m'.drones ∧ alookup k m'.droneDict = none ∧
      ∀ e, (k, e) ∉ evs := by
  obtain ⟨m', evs, heq, _, hret⟩ := sendUpdates_spec m now hqnd hknd hpres
  obtain ⟨h1, h2, h3⟩ := hret k d hk hd hto
  exact ⟨m', evs, heq, h1, h2, h3⟩

theorem C7_retirement_witness :
    ∃ m' evs, sendUpdates mgrC7 100 = Except.ok (m', evs) ∧
      "drone-OLD" ∉ m'.drones ∧ alookup "drone-OLD" m'.droneDict = none ∧
      ∀ e, ("drone-OLD", e) ∉ evs :=
  C7_retirement mgrC7 100 "drone-OLD" droneOldC7 (by decide) (by decide)
    (by decide) (by decide) rfl
    (by norm_num [mgrC7, droneOldC7, Drone.init])

/-- C1 (amended): every drone CoT event emitted by a tick carries the
stable drone UID `self.id` of the record that produced it — there is no
movement classifier, no consecutive-move counter, and no timestamped UID in
this revision; the position change since the last emission is computed only
for a debug log.  Pilot and home events carry the stable pilot- and
home-prefixed UIDs. -/
theorem C1_stable_uid (m : DroneManager) (now : ℚ)
    (hqnd : m.drones.Nodup) (hknd : (m.droneDict.map Prod.fst).Nodup)
    (hpres : ∀ k' ∈ m.drones, (alookup k' m.droneDict).isSome = true) :
    ∃ m' evs, sendUpdates m now = Except.ok (m', evs) ∧
      ∀ k e, (k, e) ∈ evs → ∃ d, alookup k m.droneDict = some d ∧
        (e.kind = EvKind.droneEv → e.uid = d.id) ∧
        (e.kind = EvKind.pilotEv → e.uid = "pilot-" ++ stripDronePfx d.id) ∧
        (e.kind = EvKind.homeEv → e.uid = "home-" ++ stripDronePfx d.id) := by
  obtain ⟨m', evs, heq, hevs, _⟩ := sendUpdates_spec m now hqnd hknd hpres
  refine ⟨m', evs, heq, ?_⟩
  intro k e hke
  obtain ⟨d, hd, _, _, he⟩ := hevs k e hke
  refine ⟨d, hd, ?_, ?_, ?_⟩ <;>
    rcases tickOne_event_shape _ _ _ _ _ he with h | h | h <;>
      subst h <;>
      simp [droneCotEvent, pilotCotEvent, homeCotEvent]

theorem C1_stable_uid_witness :
    ∃ m' evs, sendUpdates c1m1v 1 = Except.ok (m', evs) ∧
      ∀ k e, (k, e) ∈ evs → ∃ d, alookup k c1m1v.droneDict = some d ∧
        (e.kind = EvKind.droneEv → e.uid = d.id) ∧
        (e.kind = EvKind.pilotEv → e.uid = "pilot-" ++ stripDronePfx d.id) ∧
        (e.kind = EvKind.homeEv → e.uid = "home-" ++ stripDronePfx d.id) :=
  C1_stable_uid c1m1v 1 (by decide) (by decide) (by decide)

set_option maxHeartbeats 4000000 in
/-- C1 counterexample: serial "ABC" is ingested at latitude 40 and then
moved by a full degree of latitude (far above the position threshold, whose
spec default is 2e-5 degrees) before each of the ticks at t=3 and t=5, so by
the claim's movement rule the tick at t=5 — following two consecutive
above-threshold position changes since the last emission — must emit a fresh
timestamped UID of the form "drone-ABC-<timestamp>"; the code emits the
stable UID "drone-ABC" at every tick, which does not even extend
"drone-ABC-". -/
theorem C1_counterexample :
    ingestTelemetry mgr0 (c1Info 40) 0 0 = Except.ok (c1m1v, []) ∧
    sendUpdates c1m1v 1 =
      Except.ok (c1m2v, [("drone-ABC", droneCotEvent c1d0 1 (some 59))]) ∧
    ingestTelemetry c1m2v (c1Info 41) 2 0 = Except.ok (c1m3v, []) ∧
    sendUpdates c1m3v 3 =
      Except.ok (c1m4v, [("drone-ABC", droneCotEvent c1d2 3 (some 59))]) ∧
    ingestTelemetry c1m4v (c1Info 42) 4 0 = Except.ok (c1m5v, []) ∧
    sendUpdates c1m5v 5 =
      Except.ok (c1m6v, [("drone-ABC", droneCotEvent c1d4 5 (some 59))]) ∧
    c1d2.lat - c1d2.last_sent_lat = 1 ∧
    c1d4.lat - c1d4.last_sent_lat = 1 ∧
    ((2 : ℚ) / 100000 ≤ 1) ∧
    (droneCotEvent c1d2 3 (some 59)).uid = "drone-ABC" ∧
    (droneCotEvent c1d4 5 (some 59)).uid = "drone-ABC" ∧
    "drone-ABC".startsWith "drone-ABC-" = false := by
  refine ⟨rfl, ?_, rfl, ?_, rfl, ?_, by norm_num [c1d2, c1d1, c1d0, Drone.update,
      ingestUpdateArgs, UpdateArgs.defaults, c1Info, parseListMessage, processItem,
      processBasicId, processLocation, emptyInfo, basicItem, locItem, emptyItem,
      Drone.init], by norm_num [c1d4, c1d3, c1d2, c1d1, c1d0, Drone.update,
      ingestUpdateArgs, UpdateArgs.defaults, c1Info, parseListMessage, processItem,
      processBasicId, processLocation, emptyInfo, basicItem, locItem, emptyItem,
      Drone.init], by norm_num, rfl, rfl, rfl⟩
  · norm_num [sendUpdates, sendUpdatesGo, tickOne, alookup, aset, aerase,
      removeFirst, c1m1v, c1m2v, c1d0, c1d1, mgr0, Drone.init, droneCotEvent,
      uaCotType]
  · norm_num [sendUpdates, sendUpdatesGo, tickOne, alookup, aset, aerase,
      removeFirst, c1m3v, c1m4v, c1m1v, c1d2, c1d3, c1d1, c1d0, mgr0, Drone.init,
      Drone.update, ingestUpdateArgs, UpdateArgs.defaults, c1Info, parseListMessage,
      processItem, processBasicId, processLocation, emptyInfo, basicItem, locItem,
      emptyItem, droneCotEvent, uaCotType]
  · norm_num [sendUpdates, sendUpdatesGo, tickOne, alookup, aset, aerase,
      removeFirst, c1m5v, c1m6v, c1m1v, c1d4, c1d5, c1d3, c1d2, c1d1, c1d0, mgr0,
      Drone.init, Drone.update, ingestUpdateArgs, UpdateArgs.defaults, c1Info,
      parseListMessage, processItem, processBasicId, processLocation, emptyInfo,
      basicItem, locItem, emptyItem, droneCotEvent, uaCotType]

theorem attemptSeq_mem (ok : Nat → Bool) (mk : Nat → Bool → SendAction)
    (crit : SendAction) (delay : ℚ) :
    ∀ (fuel attempt : Nat) (a : SendAction),
      a ∈ attemptSeq ok mk crit delay attempt fuel →
      (∃ n b, a = mk n b) ∨ a = crit ∨ a = SendAction.sleep delay := by
  intro fuel
  induction fuel with
  | zero => intro attempt a ha; simp [attemptSeq] at ha
  | succ f ih =>
      intro attempt a ha
      unfold attemptSeq at ha
      by_cases h1 : ok attempt
      · rw [if_pos h1] at ha
        rw [List.mem_singleton] at ha
        exact Or.inl ⟨attempt, true, ha⟩
      · rw [if_neg h1] at ha
        by_cases h2 : f = 0
        · rw [if_pos h2] at ha
          rcases List.mem_cons.mp ha with he | hm
          · exact Or.inl ⟨attempt, false, he⟩
          · rw [List.mem_singleton] at hm
            exact Or.inr (Or.inl hm)
        · rw [if_neg h2] at ha
          rcases List.mem_cons.mp ha with he | hm
          · exact Or.inl ⟨attempt, false, he⟩
          · rcases List.mem_cons.mp hm with he' | hm'
            · exact Or.inr (Or.inr he')
            · exact ih (attempt + 1) a hm'

theorem attemptSeq_count_le (ok : Nat → Bool) (mk : Nat → Bool → SendAction)
    (crit : SendAction) (delay : ℚ) (p : SendAction → Bool)
    (hmkcrit : p crit = false) (hsleep : p (SendAction.sleep delay) = false) :
    ∀ fuel attempt,
      ((attemptSeq ok mk crit delay attempt fuel).filter p).length ≤ fuel := by
  intro fuel
  induction fuel with
  | zero => intro attempt; simp [attemptSeq]
  | succ f ih =>
      intro attempt
      unfold attemptSeq
      by_cases h1 : ok attempt
      · rw [if_pos h1]
        by_cases hm : p (mk attempt true) <;> simp [List.filter, hm]
      · rw [if_neg h1]
        by_cases h2 : f = 0
        · rw [if_pos h2]
          subst h2
          by_cases hm : p (mk attempt false) <;>
            simp [List.filter, hm, hmkcrit]
        · rw [if_neg h2]
          have := ih (attempt + 1)
          by_cases hm : p (mk attempt false) <;>
            simp [List.filter, hm, hsleep] <;> omega

theorem attemptSeq_crit_of_all_fail (ok : Nat → Bool) (mk : Nat → Bool → SendAction)
    (crit : SendAction) (delay : ℚ) (hfail : ∀ i, ok i = false) :
    ∀ fuel attempt, 1 ≤ fuel →
      crit ∈ attemptSeq ok mk crit delay attempt fuel := by
  intro fuel
  induction fuel with
  | zero => intro attempt h; omega
  | succ f ih =>
      intro attempt _
      unfold attemptSeq
      rw [if_neg (by rw [hfail attempt]; exact Bool.false_ne_true)]
      by_cases h2 : f = 0
      · rw [if_pos h2]
        exact List.mem_cons_of_mem _ (List.mem_singleton.mpr rfl)
      · rw [if_neg h2]
        refine List.mem_cons_of_mem _ (List.mem_cons_of_mem _ ?_)
        exact ih (attempt + 1) (Nat.one_le_iff_ne_zero.mpr h2)

theorem attemptSeq_sleep_delay (ok : Nat → Bool) (mk : Nat → Bool → SendAction)
    (crit : SendAction) (delay : ℚ)
    (hmk : ∀ n b d', mk n b ≠ SendAction.sleep d')
    (hcrit : ∀ d', crit ≠ SendAction.sleep d') :
    ∀ fuel attempt d', SendAction.sleep d' ∈ attemptSeq ok mk crit delay attempt fuel →
      d' = delay := by
  intro fuel attempt d' hm
  rcases attemptSeq_mem ok mk crit delay fuel attempt _ hm with ⟨n, b, he⟩ | he | he
  · exact absurd he.symm (hmk n b d')
  · exact absurd he.symm (hcrit d')
  · injection he.symm with h
    exact h.symm

theorem attemptSeq_no_mcast (ok : Nat → Bool) (mk : Nat → Bool → SendAction)
    (crit : SendAction) (delay : ℚ)
    (hmk : ∀ n b, (mk n b).isMcastAttempt = false)
    (hcrit : crit.isMcastAttempt = false) :
    ∀ fuel attempt a, a ∈ attemptSeq ok mk crit delay attempt fuel →
      a.isMcastAttempt = false := by
  intro fuel attempt a ha
  rcases attemptSeq_mem ok mk crit delay fuel attempt a ha with ⟨n, b, he⟩ | he | he
  · exact he ▸ hmk n b
  · exact he ▸ hcrit
  · exact he ▸ rfl

theorem attemptSeq_no_unicast (ok : Nat → Bool) (ip : String) (rd : ℚ) :
    ∀ fuel attempt a,
      a ∈ attemptSeq ok (SendAction.mcastAttempt ip)
        (SendAction.criticalLog ("multicast-" ++ ip)) rd attempt fuel →
      a.isUnicastAttempt = false := by
  intro fuel attempt a ha
  rcases attemptSeq_mem _ _ _ _ fuel attempt a ha with ⟨n, b, he⟩ | he | he <;>
    exact he ▸ rfl

theorem mcastFan_other (rc : Nat) (rd : ℚ) (mco : String → Nat → Bool)
    (ip : String) (l : List String) (hip : ip ∉ l) :
    (l.flatMap (fun ip' =>
      attemptSeq (mco ip') (SendAction.mcastAttempt ip')
        (SendAction.criticalLog ("multicast-" ++ ip')) rd 1 rc)).filter
      (SendAction.isMcastAttemptOn ip) = [] := by
  rw [List.filter_eq_nil_iff]
  intro a ha
  obtain ⟨ip', hip', hm⟩ := List.mem_flatMap.mp ha
  have hne : ip' ≠ ip := fun he => hip (he ▸ hip')
  rcases attemptSeq_mem _ _ _ _ rc 1 a hm with ⟨n, b, he⟩ | he | he <;> subst he <;>
    simp [SendAction.isMcastAttemptOn, hne]

theorem mcastFan_count (rc : Nat) (rd : ℚ) (mco : String → Nat → Bool)
    (ip : String) :
    ∀ l : List String, l.Nodup →
      countMcastOn ip (l.flatMap (fun ip' =>
        attemptSeq (mco ip') (SendAction.mcastAttempt ip')
          (SendAction.criticalLog ("multicast-" ++ ip')) rd 1 rc)) ≤ rc := by
  intro l
  induction l with
  | nil => intro _; simp [countMcastOn]
  | cons ip' l ih =>
      intro hnd
      rw [List.nodup_cons] at hnd
      rw [List.flatMap_cons]
      unfold countMcastOn
      rw [List.filter_append, List.length_append]
      by_cases hip : ip' = ip
      · subst hip
        have h1 := attemptSeq_count_le (mco ip') (SendAction.mcastAttempt ip')
          (SendAction.criticalLog ("multicast-" ++ ip')) rd
          (SendAction.isMcastAttemptOn ip') rfl rfl rc 1
        have h2 := mcastFan_other rc rd mco ip' l hnd.1
        rw [h2]
        simpa using h1
      · have h1 : (attemptSeq (mco ip') (SendAction.mcastAttempt ip')
            (SendAction.criticalLog ("multicast-" ++ ip')) rd 1 rc).filter
            (SendAction.isMcastAttemptOn ip) = [] := by
          rw [List.filter_eq_nil_iff]
          intro a ha
          rcases attemptSeq_mem _ _ _ _ rc 1 a ha with ⟨n, b, he⟩ | he | he <;>
            subst he <;> simp [SendAction.isMcastAttemptOn, hip]
        rw [h1]
        have := ih hnd.2
        unfold countMcastOn at this
        simpa using this

/-- C8: `send_cot` tries the TCP sink when one is configured (no UDP
attempt then appears) and otherwise the UDP sink; each configured sink makes
at most `retry_count` attempts (per multicast socket as well); every sleep
in the trace lasts `retry_delay`; when every attempt on the unicast sink
fails, the critical log for that sink appears after the last failure; the
trace splits into a unicast part followed by a multicast part, so the
unicast path completes or exhausts its retries before any multicast socket
is used; and the multicast attempts are the same whatever the TCP and UDP
attempt outcomes, so a unicast failure does not prevent the multicast
sends.  The model is a total function: every exception is caught inside the
loops, so the call never raises to its caller. -/
theorem C8_sendCot_spec (cfg : SendConfig) (rc : Nat) (rd : ℚ)
    (hrc : 1 ≤ rc) (hnd : cfg.multicastSockets.Nodup) :
    (cfg.takClientConfigured = true →
      (∀ a ∈ sendCot cfg rc rd, a.isUdpAttempt = false) ∧
      countTcp (sendCot cfg rc rd) ≤ rc ∧
      ((∀ i, cfg.tcpAttemptOk i = false) →
        SendAction.criticalLog "tcp" ∈ sendCot cfg rc rd)) ∧
    (cfg.takClientConfigured = false → cfg.takUdpConfigured = true →
      (∀ a ∈ sendCot cfg rc rd, a.isTcpAttempt = false) ∧
      countUdp (sendCot cfg rc rd) ≤ rc ∧
      ((∀ i, cfg.udpAttemptOk i = false) →
        SendAction.criticalLog "udp" ∈ sendCot cfg rc rd)) ∧
    (∀ ip, countMcastOn ip (sendCot cfg rc rd) ≤ rc) ∧
    (∀ d', SendAction.sleep d' ∈ sendCot cfg rc rd → d' = rd) ∧
    (∃ u v, sendCot cfg rc rd = u ++ v ∧
      (∀ a ∈ u, a.isMcastAttempt = false) ∧
      (∀ a ∈ v, a.isUnicastAttempt = false)) ∧
    (∀ f g, (sendCot { cfg with tcpAttemptOk := f, udpAttemptOk := g } rc rd).filter
        SendAction.isMcastAttempt =
      (sendCot cfg rc rd).filter SendAction.isMcastAttempt) := by
  have huni_mem : ∀ a, a ∈ (if cfg.takClientConfigured then
      attemptSeq cfg.tcpAttemptOk SendAction.tcpAttempt
        (SendAction.criticalLog "tcp") rd 1 rc
    else if cfg.takUdpConfigured then
      attemptSeq cfg.udpAttemptOk SendAction.udpAttempt
        (SendAction.criticalLog "udp") rd 1 rc
    else []) → a.isMcastAttempt = false := by
    intro a ha
    by_cases h1 : cfg.takClientConfigured
    · rw [if_pos h1] at ha
      exact attemptSeq_no_mcast cfg.tcpAttemptOk SendAction.tcpAttempt
        (SendAction.criticalLog "tcp") rd (fun n b => rfl) rfl rc 1 a ha
    · rw [if_neg h1] at ha
      by_cases h2 : cfg.takUdpConfigured
      · rw [if_pos h2] at ha
        exact attemptSeq_no_mcast cfg.udpAttemptOk SendAction.udpAttempt
          (SendAction.criticalLog "udp") rd (fun n b => rfl) rfl rc 1 a ha
      · rw [if_neg h2] at ha
        simp at ha
  have hmc_mem : ∀ a, a ∈ (if cfg.multicastEnabled ∧ cfg.multicastSockets ≠ [] then
      cfg.multicastSockets.flatMap (fun ip =>
        attemptSeq (cfg.mcastAttemptOk ip) (SendAction.mcastAttempt ip)
          (SendAction.criticalLog ("multicast-" ++ ip)) rd 1 rc)
    else []) → a.isUnicastAttempt = false := by
    intro a ha
    by_cases h1 : cfg.multicastEnabled ∧ cfg.multicastSockets ≠ []
    · rw [if_pos h1] at ha
      obtain ⟨ip, _, hm⟩ := List.mem_flatMap.mp ha
      exact attemptSeq_no_unicast (cfg.mcastAttemptOk ip) ip rd rc 1 a hm
    · rw [if_neg h1] at ha
      simp at ha
  refine ⟨?_, ?_, ?_, ?_, ?_, ?_⟩
  · intro h1
    refine ⟨?_, ?_, ?_⟩
    · intro a ha
      unfold sendCot at ha
      rcases List.mem_append.mp ha with hu | hv
      · rw [if_pos h1] at hu
        rcases attemptSeq_mem _ _ _ _ rc 1 a hu with ⟨n, b, he⟩ | he | he <;>
          subst he <;> rfl
      · have := hmc_mem a hv
        by_cases h2 : cfg.multicastEnabled ∧ cfg.multicastSockets ≠ []
        · rw [if_pos h2] at hv
          obtain ⟨ip, _, hm⟩ := List.mem_flatMap.mp hv
          rcases attemptSeq_mem _ _ _ _ rc 1 a hm with ⟨n, b, he⟩ | he | he <;>
            subst he <;> rfl
        · rw [if_neg h2] at hv
          simp at hv
    · unfold countTcp sendCot
      rw [if_pos h1, List.filter_append, List.length_append]
      have h2 := attemptSeq_count_le cfg.tcpAttemptOk SendAction.tcpAttempt
        (SendAction.criticalLog "tcp") rd SendAction.isTcpAttempt rfl rfl rc 1
      have h3 : (if cfg.multicastEnabled ∧ cfg.multicastSockets ≠ [] then
          cfg.multicastSockets.flatMap (fun ip =>
            attemptSeq (cfg.mcastAttemptOk ip) (SendAction.mcastAttempt ip)
              (SendAction.criticalLog ("multicast-" ++ ip)) rd 1 rc)
        else []).filter SendAction.isTcpAttempt = [] := by
        rw [List.filter_eq_nil_iff]
        intro a ha
        have := hmc_mem a ha
        cases a <;> simp_all [SendAction.isUnicastAttempt, SendAction.isTcpAttempt]
      rw [h3]
      simpa using h2
    · intro hfail
      unfold sendCot
      rw [if_pos h1]
      exact List.mem_append.mpr (Or.inl
        (attemptSeq_crit_of_all_fail cfg.tcpAttemptOk SendAction.tcpAttempt
          (SendAction.criticalLog "tcp") rd hfail rc 1 hrc))
  · intro h1 h2
    refine ⟨?_, ?_, ?_⟩
    · intro a ha
      unfold sendCot at ha
      rcases List.mem_append.mp ha with hu | hv
      · rw [if_neg (by simp [h1]), if_pos h2] at hu
        rcases attemptSeq_mem _ _ _ _ rc 1 a hu with ⟨n, b, he⟩ | he | he <;>
          subst he <;> rfl
      · by_cases h3 : cfg.multicastEnabled ∧ cfg.multicastSockets ≠ []
        · rw [if_pos h3] at hv
          obtain ⟨ip, _, hm⟩ := List.mem_flatMap.mp hv
          rcases attemptSeq_mem _ _ _ _ rc 1 a hm with ⟨n, b, he⟩ | he | he <;>
            subst he <;> rfl
        · rw [if_neg h3] at hv
          simp at hv
    · unfold countUdp sendCot
      rw [if_neg (by simp [h1]), if_pos h2, List.filter_append, List.length_append]
      have h4 := attemptSeq_count_le cfg.udpAttemptOk SendAction.udpAttempt
        (SendAction.criticalLog "udp") rd SendAction.isUdpAttempt rfl rfl rc 1
      have h3 : (if cfg.multicastEnabled ∧ cfg.multicastSockets ≠ [] then
          cfg.multicastSockets.flatMap (fun ip =>
            attemptSeq (cfg.mcastAttemptOk ip) (SendAction.mcastAttempt ip)
              (SendAction.criticalLog ("multicast-" ++ ip)) rd 1 rc)
        else []).filter SendAction.isUdpAttempt = [] := by
        rw [List.filter_eq_nil_iff]
        intro a ha
        have := hmc_mem a ha
        cases a <;> simp_all [SendAction.isUnicastAttempt, SendAction.isUdpAttempt]
      rw [h3]
      simpa using h4
    · intro hfail
      unfold sendCot
      rw [if_neg (by simp [h1]), if_pos h2]
      exact List.mem_append.mpr (Or.inl
        (attemptSeq_crit_of_all_fail cfg.udpAttemptOk SendAction.udpAttempt
          (SendAction.criticalLog "udp") rd hfail rc 1 hrc))
  · intro ip
    unfold countMcastOn sendCot
    rw [List.filter_append, List.length_append]
    have h3 : (if cfg.takClientConfigured then
        attemptSeq cfg.tcpAttemptOk SendAction.tcpAttempt
          (SendAction.criticalLog "tcp") rd 1 rc
      else if cfg.takUdpConfigured then
        attemptSeq cfg.udpAttemptOk SendAction.udpAttempt
          (SendAction.criticalLog "udp") rd 1 rc
      else []).filter (SendAction.isMcastAttemptOn ip) = [] := by
      rw [List.filter_eq_nil_iff]
      intro a ha
      have := huni_mem a ha
      cases a <;> simp_all [SendAction.isMcastAttempt, SendAction.isMcastAttemptOn]
    rw [h3]
    by_cases h1 : cfg.multicastEnabled ∧ cfg.multicastSockets ≠ []
    · rw [if_pos h1]
      have := mcastFan_count rc rd cfg.mcastAttemptOk ip cfg.multicastSockets hnd
      unfold countMcastOn at this
      simpa using this
    · rw [if_neg h1]
      simp
  · intro d' hd'
    unfold sendCot at hd'
    rcases List.mem_append.mp hd' with hu | hv
    · by_cases h1 : cfg.takClientConfigured
      · rw [if_pos h1] at hu
        exact attemptSeq_sleep_delay _ _ _ _ (fun n b d₂ => by simp)
          (fun d₂ => by simp) rc 1 d' hu
      · rw [if_neg h1] at hu
        by_cases h2 : cfg.takUdpConfigured
        · rw [if_pos h2] at hu
          exact attemptSeq_sleep_delay _ _ _ _ (fun n b d₂ => by simp)
            (fun d₂ => by simp) rc 1 d' hu
        · rw [if_neg h2] at hu
          simp at hu
    · by_cases h1 : cfg.multicastEnabled ∧ cfg.multicastSockets ≠ []
      · rw [if_pos h1] at hv
        obtain ⟨ip, _, hm⟩ := List.mem_flatMap.mp hv
        exact attemptSeq_sleep_delay _ _ _ _ (fun n b d₂ => by simp)
          (fun d₂ => by simp) rc 1 d' hm
      · rw [if_neg h1] at hv
        simp at hv
  · exact ⟨_, _, rfl, huni_mem, hmc_mem⟩
  · intro f g
    unfold sendCot
    rw [List.filter_append, List.filter_append]
    have hu1 : ∀ (cfg₂ : SendConfig), (if cfg₂.takClientConfigured then
        attemptSeq cfg₂.tcpAttemptOk SendAction.tcpAttempt
          (SendAction.criticalLog "tcp") rd 1 rc
      else if cfg₂.takUdpConfigured then
        attemptSeq cfg₂.udpAttemptOk SendAction.udpAttempt
          (SendAction.criticalLog "udp") rd 1 rc
      else []).filter SendAction.isMcastAttempt = [] := by
      intro cfg₂
      rw [List.filter_eq_nil_iff]
      intro a ha
      by_cases h1 : cfg₂.takClientConfigured
      · rw [if_pos h1] at ha
        have h0 := attemptSeq_no_mcast cfg₂.tcpAttemptOk SendAction.tcpAttempt
          (SendAction.criticalLog "tcp") rd (fun n b => rfl) rfl rc 1 a ha
        simp [h0]
      · rw [if_neg h1] at ha
        by_cases h2 : cfg₂.takUdpConfigured
        · rw [if_pos h2] at ha
          have h0 := attemptSeq_no_mcast cfg₂.udpAttemptOk SendAction.udpAttempt
            (SendAction.criticalLog "udp") rd (fun n b => rfl) rfl rc 1 a ha
          simp [h0]
        · rw [if_neg h2] at ha
          simp at ha
    rw [hu1, hu1]

theorem C8_sendCot_spec_witness :
    ((cfgW.takClientConfigured = true →
      (∀ a ∈ sendCot cfgW 3 1, a.isUdpAttempt = false) ∧
      countTcp (sendCot cfgW 3 1) ≤ 3 ∧
      ((∀ i, cfgW.tcpAttemptOk i = false) →
        SendAction.criticalLog "tcp" ∈ sendCot cfgW 3 1)) ∧
    (cfgW.takClientConfigured = false → cfgW.takUdpConfigured = true →
      (∀ a ∈ sendCot cfgW 3 1, a.isTcpAttempt = false) ∧
      countUdp (sendCot cfgW 3 1) ≤ 3 ∧
      ((∀ i, cfgW.udpAttemptOk i = false) →
        SendAction.criticalLog "udp" ∈ sendCot cfgW 3 1)) ∧
    (∀ ip, countMcastOn ip (sendCot cfgW 3 1) ≤ 3) ∧
    (∀ d', SendAction.sleep d' ∈ sendCot cfgW 3 1 → d' = 1) ∧
    (∃ u v, sendCot cfgW 3 1 = u ++ v ∧
      (∀ a ∈ u, a.isMcastAttempt = false) ∧
      (∀ a ∈ v, a.isUnicastAttempt = false)) ∧
    (∀ f g, (sendCot { cfgW with tcpAttemptOk := f, udpAttemptOk := g } 3 1).filter
        SendAction.isMcastAttempt =
      (sendCot cfgW 3 1).filter SendAction.isMcastAttempt)) :=
  C8_sendCot_spec cfgW 3 1 (by decide) (by decide)

theorem padChars_all_digit (w n : Nat) :
    (padChars w n).all Char.isDigit = true := by
  have hdigit : ∀ r : Nat, r < 10 → (Char.ofNat (48 + r)).isDigit = true := by decide
  unfold padChars
  rw [List.all_eq_true]
  intro c hc
  rw [List.mem_map] at hc
  obtain ⟨i, _, rfl⟩ := hc
  exact hdigit _ (Nat.mod_lt _ (by norm_num))

theorem cotTimestamp_strict (t : UtcTime) (_hy : t.year < 10000)
    (_hmo : t.month < 100) (_hd : t.day < 100) (_hh : t.hour < 100)
    (_hmi : t.minute < 100) (_hs : t.second < 100) (_hu : t.micro < 1000000) :
    isStrictCotStamp (cotTimestamp t) = true := by
  have hdigit : ∀ r : Nat, r < 10 → (Char.ofNat (48 + r)).isDigit = true := by decide
  have h4 : ∀ n : Nat, padChars 4 n = [Char.ofNat (48 + n / 10 ^ 3 % 10),
      Char.ofNat (48 + n / 10 ^ 2 % 10), Char.ofNat (48 + n / 10 ^ 1 % 10),
      Char.ofNat (48 + n / 10 ^ 0 % 10)] := fun n => rfl
  have h2 : ∀ n : Nat, padChars 2 n = [Char.ofNat (48 + n / 10 ^ 1 % 10),
      Char.ofNat (48 + n / 10 ^ 0 % 10)] := fun n => rfl
  have h6 : ∀ n : Nat, padChars 6 n = [Char.ofNat (48 + n / 10 ^ 5 % 10),
      Char.ofNat (48 + n / 10 ^ 4 % 10), Char.ofNat (48 + n / 10 ^ 3 % 10),
      Char.ofNat (48 + n / 10 ^ 2 % 10), Char.ofNat (48 + n / 10 ^ 1 % 10),
      Char.ofNat (48 + n / 10 ^ 0 % 10)] := fun n => rfl
  show isStrictCotStampChars (cotTimestampChars t) = true
  rw [cotTimestampChars, h4, h2, h2, h2, h2, h2, h6]
  simp only [List.cons_append, List.nil_append]
  simp only [isStrictCotStampChars, List.all_cons, List.all_nil,
    Bool.and_eq_true, decide_eq_true_eq, and_true]
  refine ⟨?_, ?_, ?_, ?_, ?_, ?_, ?_, ?_, ?_, ?_, ?_, ?_, ?_, ?_, ?_, ?_, ?_,
    ?_, ?_, ?_⟩ <;>
    exact hdigit _ (Nat.mod_lt _ (by norm_num))

/-- C9 (amended): the time, start and stale attributes are rendered by one
strftime call in the strict UTC format YYYY-MM-DDTHH:MM:SS.ffffffZ (for
calendar-range field values, where the fixed-width zero-padded rendering
matches strftime); with no offset supplied, stale is time plus 10 minutes
(600 s); for a tick emission the scheduler supplies the offset
inactivity_timeout − time_since_update, which is nonnegative — not strictly
positive — for a record that was not retired this tick, so stale is never
earlier than time, exceeds it by at most the timeout, and is strictly later
exactly when time_since_update is strictly below the timeout. -/
theorem C9_time_stale :
    (∀ t : UtcTime, t.year < 10000 → t.month < 100 → t.day < 100 →
        t.hour < 100 → t.minute < 100 → t.second < 100 → t.micro < 1000000 →
        isStrictCotStamp (cotTimestamp t) = true) ∧
    (∀ (d : Drone) (now : ℚ),
        (droneCotEvent d now none).stale = now + 600 ∧
        (pilotCotEvent d now none).stale = now + 600 ∧
        (homeCotEvent d now none).stale = now + 600) ∧
    (∀ (m : DroneManager) (now : ℚ),
        m.drones.Nodup → (m.droneDict.map Prod.fst).Nodup →
        (∀ k ∈ m.drones, (alookup k m.droneDict).isSome = true) →
        (∀ k d, alookup k m.droneDict = some d → d.last_update_time ≤ now) →
        ∃ m' evs, sendUpdates m now = Except.ok (m', evs) ∧
          ∀ k e, (k, e) ∈ evs → ∃ d, alookup k m.droneDict = some d ∧
            e.time = now ∧ e.start = e.time ∧
            e.stale = e.time + (m.inactivityTimeout - (now - d.last_update_time)) ∧
            e.time ≤ e.stale ∧ e.stale - e.time ≤ m.inactivityTimeout ∧
            (now - d.last_update_time < m.inactivityTimeout →
              e.time < e.stale)) := by
  refine ⟨fun t h1 h2 h3 h4 h5 h6 h7 => cotTimestamp_strict t h1 h2 h3 h4 h5 h6 h7,
    ?_, ?_⟩
  · intro d now
    exact ⟨rfl, rfl, rfl⟩
  · intro m now hqnd hknd hpres hclock
    obtain ⟨m', evs, heq, hevs, _⟩ := sendUpdates_spec m now hqnd hknd hpres
    refine ⟨m', evs, heq, ?_⟩
    intro k e hke
    obtain ⟨d, hd, _, hnr, he⟩ := hevs k e hke
    obtain ⟨ht, hst, hsl⟩ := tickOne_event_times _ _ _ _ _ he
    have htsu0 : 0 ≤ now - d.last_update_time := by
      have := hclock k d hd
      linarith
    have htsu1 : now - d.last_update_time ≤ m.inactivityTimeout := not_lt.mp hnr
    refine ⟨d, hd, ht, by rw [hst, ht], by rw [hsl, ht], ?_, ?_, ?_⟩
    · rw [ht, hsl]
      linarith
    · rw [ht, hsl]
      linarith
    · intro hstrict
      rw [ht, hsl]
      linarith

theorem C9_time_stale_witness :
    isStrictCotStamp (cotTimestamp ⟨2026, 10, 12, 3, 4, 5, 123456⟩) = true ∧
    (droneCotEvent droneC9 7 none).stale = 7 + 600 ∧
    (∃ m' evs, sendUpdates mgrC9 30 = Except.ok (m', evs) ∧
      ∀ k e, (k, e) ∈ evs → ∃ d, alookup k mgrC9.droneDict = some d ∧
        e.time = 30 ∧ e.start = e.time ∧
        e.stale = e.time + (mgrC9.inactivityTimeout - (30 - d.last_update_time)) ∧
        e.time ≤ e.stale ∧ e.stale - e.time ≤ mgrC9.inactivityTimeout ∧
        (30 - d.last_update_time < mgrC9.inactivityTimeout →
          e.time < e.stale)) :=
  ⟨C9_time_stale.1 ⟨2026, 10, 12, 3, 4, 5, 123456⟩ (by norm_num) (by norm_num)
      (by norm_num) (by norm_num) (by norm_num) (by norm_num) (by norm_num),
   (C9_time_stale.2.1 droneC9 7).1,
   C9_time_stale.2.2 mgrC9 30 (by decide) (by decide) (by decide)
     (by
      intro k d hd
      simp only [mgrC9, alookup] at hd
      by_cases hk : "drone-X" = k
      · rw [if_pos hk] at hd
        injection hd with h
        subst h
        norm_num [droneC9, Drone.init]
      · rw [if_neg hk] at hd
        exact absurd hd (by simp))⟩

set_option maxHeartbeats 4000000 in
/-- C9 counterexample: a record whose time-since-update equals the
inactivity timeout exactly is not retired (retirement needs strict excess)
and is emitted with stale offset 0, so its event's stale instant equals its
time instant — the claim's strict "stale later than time" fails at the
boundary. -/
theorem C9_counterexample :
    sendUpdates mgrC9 60 =
      Except.ok
        ({ mgrC9 with droneDict := [("drone-X",
            { droneC9 with
              last_sent_lat := droneC9.lat
              last_sent_lon := droneC9.lon
              last_sent_time := 60 })] },
         [("drone-X", droneCotEvent droneC9 60 (some 0))]) ∧
    (droneCotEvent droneC9 60 (some 0)).stale =
      (droneCotEvent droneC9 60 (some 0)).time ∧
    ¬(60 - droneC9.last_update_time > mgrC9.inactivityTimeout) := by
  refine ⟨?_, ?_, ?_⟩
  · norm_num [sendUpdates, sendUpdatesGo, tickOne, alookup, aset, aerase,
      removeFirst, mgrC9, droneC9, Drone.init, droneCotEvent, uaCotType]
  · norm_num [droneCotEvent]
  · norm_num [mgrC9, droneC9, Drone.init]
